import Mathlib

/-!
# Verification of the Apollo CSS cascade and style-resolution engine

This file gives a shallow embedding, in Lean 4, of the parts of the Apollo
browser engine that implement CSS style resolution:

* the `css_parser` crate (`src/parser/css`): selectors, specificity,
  cascade origins, cascade layers, and the `CascadeContext::wins_over`
  comparator (namespace `Apollo.Css`);
* the `html_parser` DOM (`src/parser/html/src/dom.rs`): arena-based node
  tree (namespace `Apollo.Dom`);
* the `style` crate (`src/style`): the cascade, inheritance, the computed
  style record, and the `StyleResolver` traversal (namespace `Apollo.Sty`);
* the media-query matcher (`src/style/src/media_queries.rs`, namespace
  `Apollo.Med`).

Modelling conventions:

* Rust `f32` payloads are modelled as `ℚ` (`Rat`).  No claim under
  verification performs floating-point arithmetic whose rounding could be
  observed: the engine only stores, copies and compares these values, and
  all concrete inputs are small integers, so `ℚ` is faithful on the
  inputs that matter.
* Rust `u32`/`usize` counters (specificity counts, source order, node
  ids) are modelled as `Nat`; the engine only increments and compares
  them, and no claim exercises wrap-around.
* Rust `HashMap` values are modelled as association lists whose `insert`
  replaces the binding of an existing key, which reproduces the map's
  lookup semantics; iteration order of `values()` is unspecified in Rust
  and no claim depends on it.
* Rust functions returning `Result<T, String>` are modelled as
  `Except String T`; a reachable Rust panic (an `unwrap` on `None`) is
  modelled as `Except.error "panic"`.
* The `style` crate is written against a vintage of the `css_parser` API
  (enum `Selector` with `Simple`/`Compound`/`Complex`, a four-component
  `Specificity`, a payload-carrying `Property` enum, a `Length` enum)
  that is not the one under `src/parser/css`.  Those types are
  reconstructed exactly from their uses in `src/style` (field accesses,
  pattern matches and the `ComputedStyle` field types determine every
  constructor and payload used).
-/

set_option maxHeartbeats 1600000

namespace Apollo

/-!
Rust standard string primitives, modelled over the character list of a
`String` by structural recursion (Lean's own `String.splitOn`,
`String.trim`, … are compiled by well-founded recursion and do not
evaluate inside the kernel).  Rust operates on UTF-8 bytes and Unicode
character classes; on the engine's ASCII inputs the character-level
model coincides.
-/

/-- Rust's `str::starts_with(&str)`. -/
def strStartsWith (s pre : String) : Bool :=
  pre.data.isPrefixOf s.data

/-- Rust's `str::ends_with(&str)`. -/
def strEndsWith (s suf : String) : Bool :=
  suf.data.isSuffixOf s.data

/-- Rust's `&s[n..]` (byte slicing; identical to character slicing on
ASCII input). -/
def strDrop (s : String) (n : Nat) : String :=
  ⟨s.data.drop n⟩

/-- Rust's `str::len` (bytes; identical to the character count on ASCII
input). -/
def strLength (s : String) : Nat :=
  s.data.length

/-- Rust's `str::is_empty`. -/
def strIsEmpty (s : String) : Bool :=
  s.data.isEmpty

/-- Rust's `str::to_lowercase` (ASCII subset of the Unicode mapping). -/
def strToLower (s : String) : String :=
  ⟨s.data.map Char.toLower⟩

/-- Rust's `str::trim` (ASCII subset of the Unicode white-space
property). -/
def strTrim (s : String) : String :=
  ⟨((s.data.dropWhile Char.isWhitespace).reverse.dropWhile Char.isWhitespace).reverse⟩

/-- Worker for `splitWhitespace`. -/
def splitWsGo : List Char → List Char → List (List Char)
  | [], acc => if acc.isEmpty then [] else [acc.reverse]
  | c :: rest, acc =>
    if c.isWhitespace then
      if acc.isEmpty then splitWsGo rest [] else acc.reverse :: splitWsGo rest []
    else splitWsGo rest (c :: acc)

/-- Rust's `str::split_whitespace`: split on whitespace, dropping empty
pieces. -/
def splitWhitespace (s : String) : List String :=
  (splitWsGo s.data []).map (fun l => ⟨l⟩)

/-- Worker for `strSplitOn`; `fuel` makes the recursion structural and
any fuel above the input length gives Rust's `str::split` behaviour for
a non-empty separator (each step consumes at least one character and one
unit of fuel). -/
def splitOnGo (sep : List Char) : Nat → List Char → List Char → List (List Char)
  | _, [], acc => [acc.reverse]
  | 0, l, acc => [acc.reverse ++ l]
  | fuel + 1, c :: rest, acc =>
    if sep.isPrefixOf (c :: rest) then
      acc.reverse :: splitOnGo sep fuel ((c :: rest).drop sep.length) []
    else
      splitOnGo sep fuel rest (c :: acc)

/-- Rust's `str::split(&str)` with a non-empty separator, collected into
a list (leading/trailing/adjacent separators yield empty pieces, exactly
as in Rust; the result is never empty). -/
def strSplitOn (s sep : String) : List String :=
  (splitOnGo sep.data (s.data.length + 1) s.data []).map (fun l => ⟨l⟩)

/-- Rust's `str::contains(&str)`: substring test. -/
def containsSubstring (s pat : String) : Bool :=
  (List.range (s.data.length + 1)).any (fun i => pat.data.isPrefixOf (s.data.drop i))

/-! ## The DOM arena (`src/parser/html/src/dom.rs`) -/

namespace Dom

/-- `Element` from `dom.rs`.  `attributes` is a `HashMap<String, String>`
modelled as an association list (the engine only reads it via
`get_attribute`); the Rust field `namespace` is renamed `ns` because
`namespace` is a Lean keyword. -/
structure Element where
  tag_name : String
  ns : Option String
  attributes : List (String × String)
  is_void : Bool
  is_self_closing : Bool
  deriving DecidableEq

/-- `Element::get_attribute`. -/
def Element.get_attribute (e : Element) (name : String) : Option String :=
  (e.attributes.find? (fun p => p.1 == name)).map (fun p => p.2)

/-- `Element::get_id`. -/
def Element.get_id (e : Element) : Option String :=
  e.get_attribute "id"

/-- `Element::get_class_list`. -/
def Element.get_class_list (e : Element) : List String :=
  match e.get_attribute "class" with
  | some classes => splitWhitespace classes
  | none => []

/-- `Document` from `dom.rs`. -/
structure Document where
  doctype : Option String
  document_element : Option Nat
  head : Option Nat
  body : Option Nat
  deriving DecidableEq

/-- `NodeType` from `dom.rs`. -/
inductive NodeType where
  | element (e : Element)
  | text (s : String)
  | comment (s : String)
  | document (d : Document)
  | documentType (s : String)
  | processingInstruction (target data : String)
  deriving DecidableEq

/-- `Node` from `dom.rs`. -/
structure Node where
  node_type : NodeType
  parent : Option Nat
  children : List Nat
  next_sibling : Option Nat
  previous_sibling : Option Nat
  deriving DecidableEq

/-- `Node::is_element`. -/
def Node.is_element (n : Node) : Bool :=
  match n.node_type with
  | .element _ => true
  | _ => false

/-- `Node::as_element`. -/
def Node.as_element (n : Node) : Option Element :=
  match n.node_type with
  | .element e => some e
  | _ => none

/-- `DomTree` from `dom.rs`: node ids are indices into `nodes`. -/
structure DomTree where
  nodes : List Node
  document : Document
  root_id : Option Nat
  deriving DecidableEq

/-- `DomTree::get_node`. -/
def DomTree.get_node (t : DomTree) (id : Nat) : Option Node :=
  t.nodes.get? id

end Dom

/-! ## The `css_parser` crate under `src/parser/css` -/

namespace Css

/-- `Specificity` from `src/parser/css/src/specificity.rs`: the triple
`(a, b, c)` = (ids, class-likes, type-likes). -/
structure Specificity where
  a : Nat
  b : Nat
  c : Nat
  deriving DecidableEq

/-- The comparison `derive(PartialOrd, Ord)` generates for `Specificity`:
lexicographic in field declaration order `a`, `b`, `c`. -/
def Specificity.cmp (s t : Specificity) : Ordering :=
  match compare s.a t.a with
  | .eq =>
    match compare s.b t.b with
    | .eq => compare s.c t.c
    | o => o
  | o => o

/-- `AttributeOperator` from `selector.rs` (the source constructor
`Exists` is rendered `existsOp`). -/
inductive AttributeOperator where
  | existsOp
  | equals
  | includes
  | dashMatch
  | prefixMatch
  | suffixMatch
  | substringMatch
  deriving DecidableEq

/-- `Combinator` from `selector.rs`. -/
inductive Combinator where
  | descendant
  | child
  | adjacentSibling
  | generalSibling
  deriving DecidableEq

/-- `PseudoClass` from `selector.rs`. -/
inductive PseudoClass where
  | hover
  | active
  | focus
  | visited
  | link
  | firstChild
  | lastChild
  | onlyChild
  | nthChild (s : String)
  | nthLastChild (s : String)
  | nthOfType (s : String)
  | nthLastOfType (s : String)
  | firstOfType
  | lastOfType
  | onlyOfType
  | empty
  | root
  | target
  | enabled
  | disabled
  | checked
  | indeterminate
  | valid
  | invalid
  | required
  | optional
  | inRange
  | outOfRange
  | readOnly
  | readWrite
  | custom (s : String)
  deriving DecidableEq

/-- `PseudoElement` from `selector.rs`. -/
inductive PseudoElement where
  | before
  | after
  | firstLine
  | firstLetter
  | selection
  | custom (s : String)
  deriving DecidableEq

/-- `SimpleSelector` from `selector.rs`.  The source constructors `Type`,
`Class` and `Attribute` are rendered `typ`, `cls` and `attr` (`Type` and
keyword-adjacent names are unavailable in Lean). -/
inductive SimpleSelector where
  | universal
  | typ (name : String)
  | id (name : String)
  | cls (name : String)
  | attr (name : String) (operator : AttributeOperator) (value : Option String)
  | pseudoClass (p : PseudoClass)
  | pseudoElement (p : PseudoElement)
  deriving DecidableEq

/-- `Selector` from `selector.rs`: a flat list of simple-selector parts,
the combinators between them, and a cached specificity. -/
structure Selector where
  parts : List SimpleSelector
  combinators : List Combinator
  specificity : Specificity
  deriving DecidableEq

/-- The counting loop of `Selector::update_specificity`, as a function of
the parts list: ids into `a`; classes, attributes and pseudo-classes into
`b`; types and pseudo-elements into `c`; `universal` into none. -/
def updateSpecificity (parts : List SimpleSelector) : Specificity :=
  parts.foldl
    (fun s part =>
      match part with
      | .id _ => { s with a := s.a + 1 }
      | .cls _ => { s with b := s.b + 1 }
      | .attr _ _ _ => { s with b := s.b + 1 }
      | .pseudoClass _ => { s with b := s.b + 1 }
      | .typ _ => { s with c := s.c + 1 }
      | .pseudoElement _ => { s with c := s.c + 1 }
      | .universal => s)
    ⟨0, 0, 0⟩

/-- `Selector::new`. -/
def Selector.new : Selector :=
  { parts := [], combinators := [], specificity := ⟨0, 0, 0⟩ }

/-- `Selector::add_simple_selector`: push the part and recompute the
cached specificity over all parts. -/
def Selector.add_simple_selector (s : Selector) (part : SimpleSelector) : Selector :=
  { s with
    parts := s.parts ++ [part]
    specificity := updateSpecificity (s.parts ++ [part]) }

/-- `Selector::add_combinator`. -/
def Selector.add_combinator (s : Selector) (c : Combinator) : Selector :=
  { s with combinators := s.combinators ++ [c] }

/-- `SelectorMatchContext` from `selector.rs`. -/
structure SelectorMatchContext where
  is_hovered : Bool
  is_active : Bool
  is_focused : Bool
  is_visited : Bool
  is_first_child : Bool
  is_last_child : Bool
  has_no_children : Bool
  is_disabled : Bool
  is_checked : Bool
  is_valid : Bool
  is_required : Bool
  is_read_only : Bool
  deriving DecidableEq

/-- `SelectorMatchContext::default`. -/
def SelectorMatchContext.new : SelectorMatchContext :=
  { is_hovered := false, is_active := false, is_focused := false
    is_visited := false, is_first_child := false, is_last_child := false
    has_no_children := true, is_disabled := false, is_checked := false
    is_valid := true, is_required := false, is_read_only := false }

/-- `Selector::attribute_matches` from `selector.rs`.  Note the absent
case: when the element lacks the attribute the function returns
`matches!(operator, AttributeOperator::Exists)`, i.e. `true` for the
`exists` operator. -/
def attribute_matches (e : Dom.Element) (name : String)
    (operator : AttributeOperator) (value : Option String) : Bool :=
  match e.get_attribute name with
  | none => operator = .existsOp
  | some element_value =>
    match operator with
    | .existsOp => true
    | .equals => element_value == value.getD ""
    | .includes =>
      match value with
      | some val => (splitWhitespace element_value).any (fun v => v == val)
      | none => false
    | .dashMatch =>
      match value with
      | some val => element_value == val || strStartsWith element_value (val ++ "-")
      | none => false
    | .prefixMatch =>
      match value with
      | some val => strStartsWith element_value val
      | none => false
    | .suffixMatch =>
      match value with
      | some val => strEndsWith element_value val
      | none => false
    | .substringMatch =>
      match value with
      | some val => containsSubstring element_value val
      | none => false

/-- `Selector::pseudo_class_matches` from `selector.rs`. -/
def pseudo_class_matches (p : PseudoClass) (e : Dom.Element)
    (context : SelectorMatchContext) : Bool :=
  match p with
  | .hover => context.is_hovered
  | .active => context.is_active
  | .focus => context.is_focused
  | .visited => context.is_visited
  | .link => strToLower e.tag_name == "a" && (e.get_attribute "href").isSome
  | .firstChild => context.is_first_child
  | .lastChild => context.is_last_child
  | .onlyChild => context.is_first_child && context.is_last_child
  | .empty => context.has_no_children
  | .root => strToLower e.tag_name == "html"
  | .enabled => !context.is_disabled
  | .disabled => context.is_disabled
  | .checked => context.is_checked
  | .valid => context.is_valid
  | .invalid => !context.is_valid
  | .required => context.is_required
  | .optional => !context.is_required
  | .readOnly => context.is_read_only
  | .readWrite => !context.is_read_only
  | _ => false

/-- `Selector::simple_selector_matches` from `selector.rs`. -/
def simple_selector_matches (part : SimpleSelector) (e : Dom.Element)
    (context : SelectorMatchContext) : Bool :=
  match part with
  | .universal => true
  | .typ tag_name => strToLower e.tag_name == strToLower tag_name
  | .id i => e.get_id == some i
  | .cls c => e.get_class_list.contains c
  | .attr name operator value => attribute_matches e name operator value
  | .pseudoClass p => pseudo_class_matches p e context
  | .pseudoElement _ => false

/-- `Selector::matches_element` from `selector.rs`.  As the source
comments, matching is "simplified": only the last part is tested; the
combinator chain and all tree context are ignored. -/
def Selector.matches_element (s : Selector) (e : Dom.Element)
    (context : SelectorMatchContext) : Bool :=
  match s.parts.getLast? with
  | none => false
  | some last_part => simple_selector_matches last_part e context

/-- `CascadeOrigin` from `specificity.rs`, with its discriminants. -/
inductive CascadeOrigin where
  | userAgent
  | user
  | author
  | authorImportant
  | userImportant
  deriving DecidableEq

/-- `CascadeOrigin::numeric_value` (also its `derive(Ord)` discriminant). -/
def CascadeOrigin.num : CascadeOrigin → Nat
  | .userAgent => 0
  | .user => 1
  | .author => 2
  | .authorImportant => 3
  | .userImportant => 4

/-- `CascadeLayer` from `specificity.rs`. -/
structure CascadeLayer where
  name : String
  order : Nat
  deriving DecidableEq

/-- The comparison `derive(PartialOrd, Ord)` generates for `CascadeLayer`:
lexicographic in field declaration order, so the `name` string is compared
first and `order` only breaks ties between equal names. -/
def CascadeLayer.cmp (l m : CascadeLayer) : Ordering :=
  match compare l.name m.name with
  | .eq => compare l.order m.order
  | o => o

/-- `CascadeContext` from `specificity.rs`. -/
structure CascadeContext where
  origin : CascadeOrigin
  layer : Option CascadeLayer
  specificity : Specificity
  source_order : Nat
  deriving DecidableEq

/-- Steps 3 and 4 of `CascadeContext::wins_over`: specificity, then
source order (later wins). -/
def CascadeContext.wins_over_tail (self other : CascadeContext) : Bool :=
  match self.specificity.cmp other.specificity with
  | .gt => true
  | .lt => false
  | .eq => other.source_order < self.source_order

/-- `CascadeContext::wins_over` from `specificity.rs`: origin, then layer
(layered beats unlayered; two layers via the derived `Ord`), then
specificity, then source order. -/
def CascadeContext.wins_over (self other : CascadeContext) : Bool :=
  match compare self.origin.num other.origin.num with
  | .gt => true
  | .lt => false
  | .eq =>
    match self.layer, other.layer with
    | some self_layer, some other_layer =>
      match self_layer.cmp other_layer with
      | .gt => true
      | .lt => false
      | .eq => self.wins_over_tail other
    | some _, none => true
    | none, some _ => false
    | none, none => self.wins_over_tail other

end Css

/-! ## The `style` crate (`src/style`)

The `style` crate is written against a `css_parser` vintage that is not
the one under `src/parser/css`.  Every type below that the crate imports
from that vintage (`Length`, the payload-carrying `Property`, the enum
`Selector`, the four-component `Specificity`, …) is reconstructed from
its uses inside `src/style` (pattern matches, field accesses, and the
`ComputedStyle` field types fix all constructors and payloads the crate
can observe); `Color` coincides with the one in
`src/parser/css/src/properties.rs`. -/

namespace Sty

/-- `Color` (as in `src/parser/css/src/properties.rs`). -/
inductive Color where
  | rgb (r g b : Nat)
  | rgba (r g b : Nat) (a : ℚ)
  | hsl (h s l : ℚ)
  | hsla (h s l a : ℚ)
  | hex (s : String)
  | named (s : String)
  | transparent
  | currentColor
  deriving DecidableEq

/-- `Length`, reconstructed from its uses in `src/style`
(`inheritance.rs` matches on `Em`/`Rem`/`Percentage`, `computed_style.rs`
uses `Px`/`Auto`/`None`). -/
inductive Length where
  | px (v : ℚ)
  | em (v : ℚ)
  | rem (v : ℚ)
  | percentage (v : ℚ)
  | auto
  | none
  deriving DecidableEq

/-- `Percentage`, reconstructed from `Percentage::new` in
`computed_style.rs`. -/
structure PercentageV where
  value : ℚ
  deriving DecidableEq

/-- `Percentage::new`. -/
def PercentageV.new (v : ℚ) : PercentageV := ⟨v⟩

/-- `Display`, reconstructed from `computed_style.rs`
(`is_block_level`/`is_inline_level` and the default). -/
inductive Display where
  | inline
  | block
  | inlineBlock
  | listItem
  | table
  | inlineTable
  | flex
  | inlineFlex
  | grid
  | inlineGrid
  | none
  deriving DecidableEq

/-- `Position`, reconstructed from `computed_style.rs`. -/
inductive Position where
  | static
  | relative
  | absolute
  | fixed
  | sticky
  deriving DecidableEq

/-- `Float`, reconstructed from `computed_style.rs`. -/
inductive Float where
  | none
  | left
  | right
  deriving DecidableEq

/-- `Clear`, reconstructed from usage symmetric to `Float`. -/
inductive Clear where
  | none
  | left
  | right
  | both
  deriving DecidableEq

/-- `Visibility`, reconstructed from `computed_style.rs`. -/
inductive Visibility where
  | visible
  | hidden
  | collapse
  deriving DecidableEq

/-- `BorderStyle`, reconstructed from `computed_style.rs`. -/
inductive BorderStyle where
  | none
  | solid
  | dashed
  | dotted
  deriving DecidableEq

/-- `FontWeight`, reconstructed from `inheritance.rs` tests. -/
inductive FontWeight where
  | normal
  | bold
  deriving DecidableEq

/-- `FontStyle`, reconstructed from `computed_style.rs`. -/
inductive FontStyle where
  | normal
  | italic
  | oblique
  deriving DecidableEq

/-- `LineHeight`, reconstructed from `inheritance.rs` (matches on
`Percentage`) and `computed_style.rs` (default `Normal`). -/
inductive LineHeight where
  | normal
  | number (v : ℚ)
  | percentage (v : ℚ)
  deriving DecidableEq

/-- `TextAlign`, reconstructed from `computed_style.rs`. -/
inductive TextAlign where
  | start
  | left
  | right
  | center
  | justify
  deriving DecidableEq

/-- `TextDecoration`, reconstructed from `computed_style.rs`. -/
inductive TextDecoration where
  | none
  | underline
  | overline
  | lineThrough
  deriving DecidableEq

/-- `BackgroundRepeat`, reconstructed from `computed_style.rs`. -/
inductive BackgroundRepeat where
  | repeat
  | repeatX
  | repeatY
  | noRepeat
  deriving DecidableEq

/-- `BackgroundPosition`, reconstructed from `computed_style.rs`. -/
inductive BackgroundPosition where
  | percentage (x y : PercentageV)
  deriving DecidableEq

/-- `BackgroundSize`, reconstructed from `computed_style.rs`. -/
inductive BackgroundSize where
  | auto
  | cover
  | contain
  deriving DecidableEq

/-- `Time`, reconstructed from `computed_style.rs`. -/
inductive Time where
  | ms (v : ℚ)
  | s (v : ℚ)
  deriving DecidableEq

/-- The payload-carrying `Property` enum the `style` crate matches on;
payloads are fixed by `StyleResolver::apply_declaration`, which assigns
each payload to the `ComputedStyle` field of the same name. -/
inductive Property where
  | display (v : Display)
  | position (v : Position)
  | float (v : Float)
  | clear (v : Clear)
  | visibility (v : Visibility)
  | zIndex (v : Option Int)
  | width (v : Length)
  | height (v : Length)
  | minWidth (v : Length)
  | minHeight (v : Length)
  | maxWidth (v : Length)
  | maxHeight (v : Length)
  | marginTop (v : Length)
  | marginRight (v : Length)
  | marginBottom (v : Length)
  | marginLeft (v : Length)
  | paddingTop (v : Length)
  | paddingRight (v : Length)
  | paddingBottom (v : Length)
  | paddingLeft (v : Length)
  | borderTopWidth (v : Length)
  | borderRightWidth (v : Length)
  | borderBottomWidth (v : Length)
  | borderLeftWidth (v : Length)
  | borderTopStyle (v : BorderStyle)
  | borderRightStyle (v : BorderStyle)
  | borderBottomStyle (v : BorderStyle)
  | borderLeftStyle (v : BorderStyle)
  | borderTopColor (v : Color)
  | borderRightColor (v : Color)
  | borderBottomColor (v : Color)
  | borderLeftColor (v : Color)
  | backgroundColor (v : Color)
  | backgroundImage (v : Option String)
  | backgroundRepeat (v : BackgroundRepeat)
  | backgroundPosition (v : BackgroundPosition)
  | backgroundSize (v : BackgroundSize)
  | backgroundAttachment (v : String)
  | fontFamily (v : List String)
  | fontSize (v : Length)
  | fontWeight (v : FontWeight)
  | fontStyle (v : FontStyle)
  | lineHeight (v : LineHeight)
  | letterSpacing (v : Length)
  | wordSpacing (v : Length)
  | color (v : Color)
  | textAlign (v : TextAlign)
  | textDecoration (v : TextDecoration)
  | textIndent (v : Length)
  | textTransform (v : String)
  | whiteSpace (v : String)
  | opacity (v : ℚ)
  | cursor (v : String)
  | overflow (v : String)
  | overflowX (v : String)
  | overflowY (v : String)
  | transform (v : String)
  | transformOrigin (v : String)
  | transformStyle (v : String)
  | perspective (v : Length)
  | perspectiveOrigin (v : String)
  | transitionProperty (v : String)
  | transitionDuration (v : Time)
  | transitionTimingFunction (v : String)
  | transitionDelay (v : Time)
  | animationName (v : String)
  | animationDuration (v : Time)
  | animationTimingFunction (v : String)
  | animationDelay (v : Time)
  | animationIterationCount (v : String)
  | animationDirection (v : String)
  | animationFillMode (v : String)
  | animationPlayState (v : String)
  | clip (v : String)
  | clipPath (v : String)
  | filter (v : String)
  | backfaceVisibility (v : String)
  | boxShadow (v : String)
  | textShadow (v : String)
  | flexDirection (v : String)
  | flexWrap (v : String)
  | flexGrow (v : ℚ)
  | flexShrink (v : ℚ)
  | flexBasis (v : Length)
  | justifyContent (v : String)
  | alignItems (v : String)
  | alignSelf (v : String)
  | alignContent (v : String)
  | gridTemplateColumns (v : String)
  | gridTemplateRows (v : String)
  | gridTemplateAreas (v : String)
  | gridAutoColumns (v : String)
  | gridAutoRows (v : String)
  | gridAutoFlow (v : String)
  | gridColumnStart (v : String)
  | gridColumnEnd (v : String)
  | gridRowStart (v : String)
  | gridRowEnd (v : String)
  | gridGap (v : Length)
  | gridColumnGap (v : Length)
  | gridRowGap (v : Length)

/-- `Declaration` as used by `cascade.rs` (`declaration.property`,
`declaration.important`; the value lives inside the property payload). -/
structure Declaration where
  property : Property
  important : Bool

/-- The four-component `Specificity` the `style` crate uses
(`(a, b, c, d)` = (inline, ids, class-likes, type-likes)); lexicographic
comparison and componentwise addition per the crate's own
`specificity.rs` tests. -/
structure Spec4 where
  a : Nat
  b : Nat
  c : Nat
  d : Nat
  deriving DecidableEq

/-- `Specificity::new` for the four-component vintage. -/
def Spec4.new (a b c d : Nat) : Spec4 := ⟨a, b, c, d⟩

/-- Lexicographic comparison of four-component specificities. -/
def Spec4.cmp (s t : Spec4) : Ordering :=
  match compare s.a t.a with
  | .eq =>
    match compare s.b t.b with
    | .eq =>
      match compare s.c t.c with
      | .eq => compare s.d t.d
      | o => o
    | o => o
  | o => o

/-- Componentwise addition of four-component specificities. -/
def Spec4.add (s t : Spec4) : Spec4 :=
  ⟨s.a + t.a, s.b + t.b, s.c + t.c, s.d + t.d⟩

/-- The six-operator `AttributeOperator` the resolver matches on (the
`exists` test is the `None` operator there). -/
inductive AttrOp where
  | equals
  | includes
  | dashMatch
  | prefixMatch
  | suffixMatch
  | substringMatch
  deriving DecidableEq

/-- The attribute selector of this vintage: `name`, optional operator
(`None` = existence test), `value : String`. -/
structure AttrSel where
  name : String
  operator : Option AttrOp
  value : String
  deriving DecidableEq

/-- Pseudo-class selector of this vintage (the resolver reads only the
`name` field). -/
structure PseudoClassSel where
  name : String
  deriving DecidableEq

/-- The struct `SimpleSelector` of this vintage (fields per the resolver
and the crate's tests). -/
structure SimpleSel where
  tag_name : Option String
  id : Option String
  classes : List String
  attributes : List AttrSel
  pseudo_classes : List PseudoClassSel
  pseudo_elements : List String
  deriving DecidableEq

/-- A `SimpleSel` with every field empty. -/
def SimpleSel.empty : SimpleSel :=
  { tag_name := none, id := none, classes := [], attributes := []
    pseudo_classes := [], pseudo_elements := [] }

/-- The enum `Selector` of this vintage
(`Simple`/`Compound`/`Complex`). -/
inductive Sel where
  | simple (s : SimpleSel)
  | compound (parts : List SimpleSel)
  | complex (parts : List SimpleSel)
  deriving DecidableEq

/-- `StyleRule` of this vintage: selector list plus declarations. -/
structure StyleRule where
  selectors : List Sel
  declarations : List Declaration

/-- The `Rule` enum of this vintage; the resolver only destructures
`Rule::StyleRule`, other rule kinds are skipped. -/
inductive Rule where
  | styleRule (r : StyleRule)
  | atRule

/-- `Stylesheet` of this vintage. -/
structure Stylesheet where
  rules : List Rule

/-- `Stylesheet::new`. -/
def Stylesheet.new : Stylesheet := ⟨[]⟩

/-- `ComputedStyle` from `src/style/src/computed_style.rs`: one field per
CSS property, total (no field is optional except where the source uses
`Option`). -/
structure ComputedStyle where
  display : Display
  position : Position
  float : Float
  clear : Clear
  visibility : Visibility
  z_index : Option Int
  width : Length
  height : Length
  min_width : Length
  min_height : Length
  max_width : Length
  max_height : Length
  margin_top : Length
  margin_right : Length
  margin_bottom : Length
  margin_left : Length
  padding_top : Length
  padding_right : Length
  padding_bottom : Length
  padding_left : Length
  border_top_width : Length
  border_right_width : Length
  border_bottom_width : Length
  border_left_width : Length
  border_top_style : BorderStyle
  border_right_style : BorderStyle
  border_bottom_style : BorderStyle
  border_left_style : BorderStyle
  border_top_color : Color
  border_right_color : Color
  border_bottom_color : Color
  border_left_color : Color
  background_color : Color
  background_image : Option String
  background_repeat : BackgroundRepeat
  background_position : BackgroundPosition
  background_size : BackgroundSize
  background_attachment : String
  font_family : List String
  font_size : Length
  font_weight : FontWeight
  font_style : FontStyle
  line_height : LineHeight
  letter_spacing : Length
  word_spacing : Length
  color : Color
  text_align : TextAlign
  text_decoration : TextDecoration
  text_indent : Length
  text_transform : String
  white_space : String
  flex_direction : String
  flex_wrap : String
  flex_grow : ℚ
  flex_shrink : ℚ
  flex_basis : Length
  justify_content : String
  align_items : String
  align_self : String
  align_content : String
  grid_template_columns : String
  grid_template_rows : String
  grid_template_areas : String
  grid_auto_columns : String
  grid_auto_rows : String
  grid_auto_flow : String
  grid_column_start : String
  grid_column_end : String
  grid_row_start : String
  grid_row_end : String
  grid_gap : Length
  grid_column_gap : Length
  grid_row_gap : Length
  transform : String
  transform_origin : String
  transform_style : String
  perspective : Length
  perspective_origin : String
  transition_property : String
  transition_duration : Time
  transition_timing_function : String
  transition_delay : Time
  animation_name : String
  animation_duration : Time
  animation_timing_function : String
  animation_delay : Time
  animation_iteration_count : String
  animation_direction : String
  animation_fill_mode : String
  animation_play_state : String
  opacity : ℚ
  cursor : String
  overflow : String
  overflow_x : String
  overflow_y : String
  clip : String
  clip_path : String
  filter : String
  backface_visibility : String
  box_shadow : String
  text_shadow : String

/-- `impl Default for ComputedStyle`, value for value. -/
def ComputedStyle.default : ComputedStyle where
  display := .inline
  position := .static
  float := .none
  clear := .none
  visibility := .visible
  z_index := none
  width := .auto
  height := .auto
  min_width := .auto
  min_height := .auto
  max_width := .auto
  max_height := .auto
  margin_top := .px 0
  margin_right := .px 0
  margin_bottom := .px 0
  margin_left := .px 0
  padding_top := .px 0
  padding_right := .px 0
  padding_bottom := .px 0
  padding_left := .px 0
  border_top_width := .px 0
  border_right_width := .px 0
  border_bottom_width := .px 0
  border_left_width := .px 0
  border_top_style := .none
  border_right_style := .none
  border_bottom_style := .none
  border_left_style := .none
  border_top_color := .transparent
  border_right_color := .transparent
  border_bottom_color := .transparent
  border_left_color := .transparent
  background_color := .transparent
  background_image := none
  background_repeat := .repeat
  background_position := .percentage (PercentageV.new 0) (PercentageV.new 0)
  background_size := .auto
  background_attachment := "scroll"
  font_family := ["serif"]
  font_size := .px 16
  font_weight := .normal
  font_style := .normal
  line_height := .normal
  letter_spacing := .px 0
  word_spacing := .px 0
  color := .rgb 0 0 0
  text_align := .start
  text_decoration := .none
  text_indent := .px 0
  text_transform := "none"
  white_space := "normal"
  flex_direction := "row"
  flex_wrap := "nowrap"
  flex_grow := 0
  flex_shrink := 1
  flex_basis := .auto
  justify_content := "flex-start"
  align_items := "stretch"
  align_self := "auto"
  align_content := "stretch"
  grid_template_columns := "none"
  grid_template_rows := "none"
  grid_template_areas := "none"
  grid_auto_columns := "auto"
  grid_auto_rows := "auto"
  grid_auto_flow := "row"
  grid_column_start := "auto"
  grid_column_end := "auto"
  grid_row_start := "auto"
  grid_row_end := "auto"
  grid_gap := .px 0
  grid_column_gap := .px 0
  grid_row_gap := .px 0
  transform := "none"
  transform_origin := "50% 50% 0"
  transform_style := "flat"
  perspective := .none
  perspective_origin := "50% 50%"
  transition_property := "all"
  transition_duration := .ms 0
  transition_timing_function := "ease"
  transition_delay := .ms 0
  animation_name := "none"
  animation_duration := .ms 0
  animation_timing_function := "ease"
  animation_delay := .ms 0
  animation_iteration_count := "1"
  animation_direction := "normal"
  animation_fill_mode := "none"
  animation_play_state := "running"
  opacity := 1
  cursor := "auto"
  overflow := "visible"
  overflow_x := "visible"
  overflow_y := "visible"
  clip := "auto"
  clip_path := "none"
  filter := "none"
  backface_visibility := "visible"
  box_shadow := "none"
  text_shadow := "none"

/-- `ComputedStyle::new` (delegates to `Default`). -/
def ComputedStyle.new : ComputedStyle := ComputedStyle.default

/-! ### Inheritance (`src/style/src/inheritance.rs`) -/

/-- The `inheritable_properties` set built by `Inheritance::new`,
transcribed insert for insert (duplicates are harmless: only membership
is ever observed). -/
def inheritable_properties : List String :=
  [ "font-family", "font-size", "font-weight", "font-style", "font-variant"
  , "font-stretch", "font-size-adjust", "font-kerning"
  , "font-language-override", "font-feature-settings"
  , "font-variation-settings"
  , "color", "text-align", "text-decoration", "text-decoration-line"
  , "text-decoration-style", "text-decoration-color", "text-decoration-skip"
  , "text-decoration-skip-ink", "text-underline-position"
  , "text-underline-offset", "text-decoration-thickness", "text-indent"
  , "text-transform", "text-shadow", "text-rendering", "text-orientation"
  , "text-combine-upright", "text-emphasis", "text-emphasis-color"
  , "text-emphasis-style", "text-emphasis-position"
  , "letter-spacing", "word-spacing", "line-height", "white-space"
  , "word-break", "word-wrap", "overflow-wrap", "hyphens"
  , "hyphenate-character", "hyphenate-limit-chars", "hyphenate-limit-lines"
  , "hyphenate-limit-zone", "hyphenate-limit-last"
  , "list-style-type", "list-style-position", "list-style-image"
  , "border-collapse", "border-spacing", "caption-side", "empty-cells"
  , "table-layout"
  , "cursor", "visibility", "direction", "unicode-bidi", "quotes"
  , "counter-reset", "counter-increment", "resize", "text-size-adjust"
  , "text-overflow", "text-justify", "text-align-last", "text-anchor" ]

/-- `Inheritance::apply_inheritance`: copy the fixed list of inheritable
properties from the parent's computed style onto the child (each guarded,
as in the source, by membership in `inheritable_properties`). -/
def apply_inheritance (child_style parent_style : ComputedStyle) : ComputedStyle :=
  let c := if inheritable_properties.contains "font-family" then
    { child_style with font_family := parent_style.font_family } else child_style
  let c := if inheritable_properties.contains "font-size" then
    { c with font_size := parent_style.font_size } else c
  let c := if inheritable_properties.contains "font-weight" then
    { c with font_weight := parent_style.font_weight } else c
  let c := if inheritable_properties.contains "font-style" then
    { c with font_style := parent_style.font_style } else c
  let c := if inheritable_properties.contains "line-height" then
    { c with line_height := parent_style.line_height } else c
  let c := if inheritable_properties.contains "letter-spacing" then
    { c with letter_spacing := parent_style.letter_spacing } else c
  let c := if inheritable_properties.contains "word-spacing" then
    { c with word_spacing := parent_style.word_spacing } else c
  let c := if inheritable_properties.contains "color" then
    { c with color := parent_style.color } else c
  let c := if inheritable_properties.contains "text-align" then
    { c with text_align := parent_style.text_align } else c
  let c := if inheritable_properties.contains "text-decoration" then
    { c with text_decoration := parent_style.text_decoration } else c
  let c := if inheritable_properties.contains "text-indent" then
    { c with text_indent := parent_style.text_indent } else c
  let c := if inheritable_properties.contains "text-transform" then
    { c with text_transform := parent_style.text_transform } else c
  let c := if inheritable_properties.contains "white-space" then
    { c with white_space := parent_style.white_space } else c
  let c := if inheritable_properties.contains "text-shadow" then
    { c with text_shadow := parent_style.text_shadow } else c
  let c := if inheritable_properties.contains "cursor" then
    { c with cursor := parent_style.cursor } else c
  let c := if inheritable_properties.contains "visibility" then
    { c with visibility := parent_style.visibility } else c
  c

/-- `Inheritance::apply_special_inheritance`: a child value expressed in
a relative unit is replaced by the parent's value (the declared relative
expression is discarded, not resolved). -/
def apply_special_inheritance (child_style parent_style : ComputedStyle) : ComputedStyle :=
  let c := if (match child_style.font_size with
      | .em _ | .rem _ | .percentage _ => true
      | _ => false) then
    { child_style with font_size := parent_style.font_size } else child_style
  let c := if (match c.line_height with
      | .percentage _ => true
      | _ => false) then
    { c with line_height := parent_style.line_height } else c
  let c := if (match c.letter_spacing with
      | .em _ | .rem _ => true
      | _ => false) then
    { c with letter_spacing := parent_style.letter_spacing } else c
  let c := if (match c.word_spacing with
      | .em _ | .rem _ => true
      | _ => false) then
    { c with word_spacing := parent_style.word_spacing } else c
  let c := if (match c.text_indent with
      | .em _ | .rem _ | .percentage _ => true
      | _ => false) then
    { c with text_indent := parent_style.text_indent } else c
  c

/-! ### The cascade (`src/style/src/cascade.rs`) -/

/-- `Cascade::get_property_name`. -/
def get_property_name : Property → String
  | .display _ => "display"
  | .position _ => "position"
  | .float _ => "float"
  | .clear _ => "clear"
  | .visibility _ => "visibility"
  | .zIndex _ => "z-index"
  | .width _ => "width"
  | .height _ => "height"
  | .minWidth _ => "min-width"
  | .minHeight _ => "min-height"
  | .maxWidth _ => "max-width"
  | .maxHeight _ => "max-height"
  | .marginTop _ => "margin-top"
  | .marginRight _ => "margin-right"
  | .marginBottom _ => "margin-bottom"
  | .marginLeft _ => "margin-left"
  | .paddingTop _ => "padding-top"
  | .paddingRight _ => "padding-right"
  | .paddingBottom _ => "padding-bottom"
  | .paddingLeft _ => "padding-left"
  | .borderTopWidth _ => "border-top-width"
  | .borderRightWidth _ => "border-right-width"
  | .borderBottomWidth _ => "border-bottom-width"
  | .borderLeftWidth _ => "border-left-width"
  | .borderTopStyle _ => "border-top-style"
  | .borderRightStyle _ => "border-right-style"
  | .borderBottomStyle _ => "border-bottom-style"
  | .borderLeftStyle _ => "border-left-style"
  | .borderTopColor _ => "border-top-color"
  | .borderRightColor _ => "border-right-color"
  | .borderBottomColor _ => "border-bottom-color"
  | .borderLeftColor _ => "border-left-color"
  | .backgroundColor _ => "background-color"
  | .backgroundImage _ => "background-image"
  | .backgroundRepeat _ => "background-repeat"
  | .backgroundPosition _ => "background-position"
  | .backgroundSize _ => "background-size"
  | .backgroundAttachment _ => "background-attachment"
  | .fontFamily _ => "font-family"
  | .fontSize _ => "font-size"
  | .fontWeight _ => "font-weight"
  | .fontStyle _ => "font-style"
  | .lineHeight _ => "line-height"
  | .letterSpacing _ => "letter-spacing"
  | .wordSpacing _ => "word-spacing"
  | .color _ => "color"
  | .textAlign _ => "text-align"
  | .textDecoration _ => "text-decoration"
  | .textIndent _ => "text-indent"
  | .textTransform _ => "text-transform"
  | .whiteSpace _ => "white-space"
  | .opacity _ => "opacity"
  | .cursor _ => "cursor"
  | .overflow _ => "overflow"
  | .overflowX _ => "overflow-x"
  | .overflowY _ => "overflow-y"
  | .transform _ => "transform"
  | .transformOrigin _ => "transform-origin"
  | .transformStyle _ => "transform-style"
  | .perspective _ => "perspective"
  | .perspectiveOrigin _ => "perspective-origin"
  | .transitionProperty _ => "transition-property"
  | .transitionDuration _ => "transition-duration"
  | .transitionTimingFunction _ => "transition-timing-function"
  | .transitionDelay _ => "transition-delay"
  | .animationName _ => "animation-name"
  | .animationDuration _ => "animation-duration"
  | .animationTimingFunction _ => "animation-timing-function"
  | .animationDelay _ => "animation-delay"
  | .animationIterationCount _ => "animation-iteration-count"
  | .animationDirection _ => "animation-direction"
  | .animationFillMode _ => "animation-fill-mode"
  | .animationPlayState _ => "animation-play-state"
  | .clip _ => "clip"
  | .clipPath _ => "clip-path"
  | .filter _ => "filter"
  | .backfaceVisibility _ => "backface-visibility"
  | .boxShadow _ => "box-shadow"
  | .textShadow _ => "text-shadow"
  | .flexDirection _ => "flex-direction"
  | .flexWrap _ => "flex-wrap"
  | .flexGrow _ => "flex-grow"
  | .flexShrink _ => "flex-shrink"
  | .flexBasis _ => "flex-basis"
  | .justifyContent _ => "justify-content"
  | .alignItems _ => "align-items"
  | .alignSelf _ => "align-self"
  | .alignContent _ => "align-content"
  | .gridTemplateColumns _ => "grid-template-columns"
  | .gridTemplateRows _ => "grid-template-rows"
  | .gridTemplateAreas _ => "grid-template-areas"
  | .gridAutoColumns _ => "grid-auto-columns"
  | .gridAutoRows _ => "grid-auto-rows"
  | .gridAutoFlow _ => "grid-auto-flow"
  | .gridColumnStart _ => "grid-column-start"
  | .gridColumnEnd _ => "grid-column-end"
  | .gridRowStart _ => "grid-row-start"
  | .gridRowEnd _ => "grid-row-end"
  | .gridGap _ => "grid-gap"
  | .gridColumnGap _ => "grid-column-gap"
  | .gridRowGap _ => "grid-row-gap"

/-- `Cascade::get_declaration_specificity`: the source stub always
returns the zero specificity ("For now, return a default specificity"). -/
def get_declaration_specificity (_declaration : Declaration) : Spec4 :=
  Spec4.new 0 0 0 0

/-- `StyleOrigin` from `style_resolver.rs`. -/
inductive StyleOrigin where
  | userAgent
  | user
  | author
  deriving DecidableEq

/-- `ApplicableRule` from `style_resolver.rs`. -/
structure ApplicableRule where
  rule : StyleRule
  specificity : Spec4
  origin : StyleOrigin

/-- The `winning_declarations : HashMap<String, Declaration>` of
`Cascade`, modelled as an association list whose insert replaces an
existing key's binding in place. -/
abbrev DMap := List (String × Declaration)

/-- HashMap lookup. -/
def DMap.findD (m : DMap) (k : String) : Option Declaration :=
  (m.find? (fun p => p.1 == k)).map (fun p => p.2)

/-- HashMap insert (replace the binding if the key is present). -/
def DMap.insertD : DMap → String → Declaration → DMap
  | [], k, v => [(k, v)]
  | (k', v') :: rest, k, v =>
    if k' == k then (k, v) :: rest else (k', v') :: DMap.insertD rest k v

/-- The body of `Cascade::apply_cascade`'s inner loop for one
declaration: keep the later declaration whenever its (stubbed)
specificity is greater than or equal to the stored one. -/
def cascade_step (m : DMap) (declaration : Declaration) : DMap :=
  let property_name := get_property_name declaration.property
  match DMap.findD m property_name with
  | some existing_declaration =>
    let existing_specificity := get_declaration_specificity existing_declaration
    let new_specificity := get_declaration_specificity declaration
    if Spec4.cmp new_specificity existing_specificity = .gt then
      DMap.insertD m property_name declaration
    else if new_specificity = existing_specificity then
      DMap.insertD m property_name declaration
    else m
  | none => DMap.insertD m property_name declaration

/-- `Cascade::apply_cascade`: fold all declarations of all rules, in rule
order, through `cascade_step`, then return the winning values.  (The
source clears its internal map first, so the call is pure; the `values()`
iteration order of the Rust `HashMap` is unspecified, and per-property
content — which is all the callers use — does not depend on it.) -/
def apply_cascade (rules : List ApplicableRule) : Except String (List Declaration) :=
  .ok (((rules.foldl (fun m r => r.rule.declarations.foldl cascade_step m) [])).map
    (fun p => p.2))

/-! ### Selector matching and specificity in `style_resolver.rs` -/

/-- Bitwise `!` on a Rust `usize` (the source applies it, surely by
accident, to `element_attr.len()` in the dash-match branch); every string
length a Rust program can produce is below `2^64`. -/
def bitNotUsize (n : Nat) : Nat := (2 ^ 64 - 1) - n

/-- The attribute loop of `StyleResolver::simple_selector_matches`.  A
missing attribute fails every operator; the `None` operator (existence
test) additionally fails when the attribute's value is the empty string.
The dash-match branch transcribes the source literally, including the
`!element_attr.len() == …` bitwise-not comparison and the
`chars().nth(…).unwrap()` whose panic is modelled as `Except.error`. -/
def check_attributes : List AttrSel → Dom.Element → Except String Bool
  | [], _ => .ok true
  | attr_selector :: rest, e =>
    match e.get_attribute attr_selector.name with
    | none => .ok false
    | some element_attr =>
      match attr_selector.operator with
      | some .equals =>
        if element_attr != attr_selector.value then .ok false
        else check_attributes rest e
      | some .includes =>
        if !(splitWhitespace element_attr).any (fun v => v == attr_selector.value) then .ok false
        else check_attributes rest e
      | some .dashMatch =>
        if !strStartsWith element_attr attr_selector.value then .ok false
        else if bitNotUsize (strLength element_attr) == strLength attr_selector.value then
          match element_attr.data.get? (strLength attr_selector.value) with
          | none => .error "panic: called Option::unwrap on a None value"
          | some ch =>
            if !ch.isWhitespace then .ok false
            else check_attributes rest e
        else check_attributes rest e
      | some .prefixMatch =>
        if !strStartsWith element_attr attr_selector.value then .ok false
        else check_attributes rest e
      | some .suffixMatch =>
        if !strEndsWith element_attr attr_selector.value then .ok false
        else check_attributes rest e
      | some .substringMatch =>
        if !containsSubstring element_attr attr_selector.value then .ok false
        else check_attributes rest e
      | none =>
        if strIsEmpty element_attr then .ok false
        else check_attributes rest e

/-- `StyleResolver::simple_selector_matches`: tag, id, classes, then
attributes; the pseudo-class loop in the source performs no check (every
branch is a no-op), so it is omitted. -/
def simple_selector_matchesR (sel : SimpleSel) (e : Dom.Element) : Except String Bool :=
  if (match sel.tag_name with
      | some tag_name => strToLower e.tag_name != strToLower tag_name
      | none => false) then .ok false
  else if (match sel.id with
      | some i =>
        match e.get_attribute "id" with
        | some element_id => element_id != i
        | none => true
      | none => false) then .ok false
  else if sel.classes.any (fun c =>
      match e.get_attribute "class" with
      | some element_classes => !(splitWhitespace element_classes).any (fun x => x == c)
      | none => true) then .ok false
  else check_attributes sel.attributes e

/-- The `Compound` loop of `StyleResolver::selector_matches`: every
simple selector in the compound must match. -/
def compound_all : List SimpleSel → Dom.Element → Except String Bool
  | [], _ => .ok true
  | s :: rest, e =>
    match simple_selector_matchesR s e with
    | .error msg => .error msg
    | .ok false => .ok false
    | .ok true => compound_all rest e

/-- `StyleResolver::selector_matches`.  As the source comments, matching
is "simplified": for a `Complex` selector only the last simple selector
is tested and the combinator chain and tree context are ignored. -/
def selector_matchesR (sel : Sel) (e : Dom.Element) : Except String Bool :=
  match sel with
  | .simple s => simple_selector_matchesR s e
  | .compound parts => compound_all parts e
  | .complex parts =>
    match parts.getLast? with
    | some last_selector => simple_selector_matchesR last_selector e
    | none => .ok false

/-- `StyleResolver::calculate_simple_selector_specificity`: `a` (inline)
stays 0; ids into `b`; classes, attributes, pseudo-classes into `c`;
pseudo-elements and the tag into `d`. -/
def calculate_simple_selector_specificity (s : SimpleSel) : Spec4 :=
  ⟨0,
   (if s.id.isSome then 1 else 0),
   s.classes.length + s.attributes.length + s.pseudo_classes.length,
   s.pseudo_elements.length + (if s.tag_name.isSome then 1 else 0)⟩

/-- `StyleResolver::calculate_specificity`: compounds and complex
selectors sum their parts' specificities. -/
def calculate_specificity (sel : Sel) : Spec4 :=
  match sel with
  | .simple s => calculate_simple_selector_specificity s
  | .compound parts =>
    parts.foldl (fun acc s => acc.add (calculate_simple_selector_specificity s))
      (Spec4.new 0 0 0 0)
  | .complex parts =>
    parts.foldl (fun acc s => acc.add (calculate_simple_selector_specificity s))
      (Spec4.new 0 0 0 0)

/-! ### The resolver (`src/style/src/style_resolver.rs`) -/

/-- The map from element id to `ComputedStyle`
(`computed_styles : HashMap<usize, ComputedStyle>`), as an association
list; `insertS` removes any previous binding of the key, so each key has
at most one entry — exactly the `HashMap`'s behaviour. -/
abbrev SMap := List (Nat × ComputedStyle)

/-- HashMap insert for the computed-style store. -/
def SMap.insertS (m : SMap) (k : Nat) (v : ComputedStyle) : SMap :=
  (k, v) :: m.filter (fun p => p.1 != k)

/-- HashMap lookup for the computed-style store. -/
def SMap.lookupS (m : SMap) (k : Nat) : Option ComputedStyle :=
  (m.find? (fun p => p.1 == k)).map (fun p => p.2)

/-- The number of entries the store holds for a given element id. -/
def SMap.countKey (m : SMap) (k : Nat) : Nat :=
  m.countP (fun p => p.1 == k)

/-- `StyleResolver` (its per-pass helpers `Cascade`, `Inheritance`,
`MediaQueryMatcher` and `Viewport` carry no state observable across the
calls modelled here: the cascade map is cleared on entry to
`apply_cascade`, the inheritance table is fixed at construction, and the
media matcher and viewport are never consulted during resolution). -/
structure StyleResolver where
  user_agent_styles : Stylesheet
  user_styles : Stylesheet
  author_styles : List Stylesheet
  computed_styles : SMap

/-- `StyleResolver::new`. -/
def StyleResolver.new : StyleResolver :=
  { user_agent_styles := Stylesheet.new
    user_styles := Stylesheet.new
    author_styles := []
    computed_styles := [] }

/-- `StyleResolver::add_stylesheet`: `UserAgent` and `User` replace the
stored sheet; `Author` appends. -/
def add_stylesheet (r : StyleResolver) (stylesheet : Stylesheet)
    (origin : StyleOrigin) : StyleResolver :=
  match origin with
  | .userAgent => { r with user_agent_styles := stylesheet }
  | .user => { r with user_styles := stylesheet }
  | .author => { r with author_styles := r.author_styles ++ [stylesheet] }

/-- The selector loop of `StyleResolver::add_rules_from_stylesheet`:
return the first selector of the rule that matches (the source `break`s
after one match). -/
def first_matching_selector : List Sel → Dom.Element → Except String (Option Sel)
  | [], _ => .ok none
  | sel :: rest, e =>
    match selector_matchesR sel e with
    | .error msg => .error msg
    | .ok true => .ok (some sel)
    | .ok false => first_matching_selector rest e

/-- `StyleResolver::add_rules_from_stylesheet`: append an
`ApplicableRule` — with the matching selector's specificity — for every
style rule one of whose selectors matches. -/
def add_rules_from_rules : List Rule → Dom.Element → List ApplicableRule → StyleOrigin →
    Except String (List ApplicableRule)
  | [], _, acc, _ => .ok acc
  | .styleRule style_rule :: rest, e, acc, origin =>
    match first_matching_selector style_rule.selectors e with
    | .error msg => .error msg
    | .ok (some selector) =>
      add_rules_from_rules rest e
        (acc ++ [⟨style_rule, calculate_specificity selector, origin⟩]) origin
    | .ok none => add_rules_from_rules rest e acc origin
  | .atRule :: rest, e, acc, origin => add_rules_from_rules rest e acc origin

/-- `add_rules_from_stylesheet` on a whole stylesheet. -/
def add_rules_from_stylesheet (sheet : Stylesheet) (e : Dom.Element)
    (acc : List ApplicableRule) (origin : StyleOrigin) :
    Except String (List ApplicableRule) :=
  add_rules_from_rules sheet.rules e acc origin

/-- The author-stylesheet loop of `get_applicable_rules`. -/
def add_rules_from_author_sheets : List Stylesheet → Dom.Element →
    List ApplicableRule → Except String (List ApplicableRule)
  | [], _, acc => .ok acc
  | sheet :: rest, e, acc =>
    match add_rules_from_stylesheet sheet e acc .author with
    | .error msg => .error msg
    | .ok acc' => add_rules_from_author_sheets rest e acc'

/-- Stable insertion of a rule into a specificity-ascending list: the
incoming element is placed before the first element it does not strictly
exceed, so equal-specificity rules keep their relative input order, as
Rust's stable `Vec::sort_by` does. -/
def insert_sorted (x : ApplicableRule) : List ApplicableRule → List ApplicableRule
  | [] => [x]
  | y :: ys =>
    if Spec4.cmp x.specificity y.specificity ≠ .gt then x :: y :: ys
    else y :: insert_sorted x ys

/-- `applicable_rules.sort_by(|a, b| a.specificity.cmp(&b.specificity))`:
stable sort, ascending by specificity (insertion sort is stable and
agrees with Rust's stable merge sort on any total comparator). -/
def sort_rules : List ApplicableRule → List ApplicableRule
  | [] => []
  | x :: xs => insert_sorted x (sort_rules xs)

/-- `StyleResolver::get_applicable_rules`: user-agent sheet, then user
sheet, then each author sheet, then sort by bare specificity (the
recorded `origin` is never consulted again). -/
def get_applicable_rules (r : StyleResolver) (tree : Dom.DomTree) (element_id : Nat) :
    Except String (List ApplicableRule) :=
  match tree.get_node element_id with
  | none => .error "Element not found"
  | some node =>
    match node.node_type with
    | .element element_ref =>
      (match add_rules_from_stylesheet r.user_agent_styles element_ref [] .userAgent with
       | .error msg => .error msg
       | .ok acc1 =>
         match add_rules_from_stylesheet r.user_styles element_ref acc1 .user with
         | .error msg => .error msg
         | .ok acc2 =>
           match add_rules_from_author_sheets r.author_styles element_ref acc2 with
           | .error msg => .error msg
           | .ok acc3 => .ok (sort_rules acc3))
    | _ => .ok []

/-- `StyleResolver::apply_declaration`: write the declared value into the
`ComputedStyle` field of the same name.  (The source returns
`Result<(), String>` but never errs.) -/
def apply_declaration (s : ComputedStyle) (declaration : Declaration) : ComputedStyle :=
  match declaration.property with
  | .display v => { s with display := v }
  | .position v => { s with position := v }
  | .float v => { s with float := v }
  | .clear v => { s with clear := v }
  | .visibility v => { s with visibility := v }
  | .zIndex v => { s with z_index := v }
  | .width v => { s with width := v }
  | .height v => { s with height := v }
  | .minWidth v => { s with min_width := v }
  | .minHeight v => { s with min_height := v }
  | .maxWidth v => { s with max_width := v }
  | .maxHeight v => { s with max_height := v }
  | .marginTop v => { s with margin_top := v }
  | .marginRight v => { s with margin_right := v }
  | .marginBottom v => { s with margin_bottom := v }
  | .marginLeft v => { s with margin_left := v }
  | .paddingTop v => { s with padding_top := v }
  | .paddingRight v => { s with padding_right := v }
  | .paddingBottom v => { s with padding_bottom := v }
  | .paddingLeft v => { s with padding_left := v }
  | .borderTopWidth v => { s with border_top_width := v }
  | .borderRightWidth v => { s with border_right_width := v }
  | .borderBottomWidth v => { s with border_bottom_width := v }
  | .borderLeftWidth v => { s with border_left_width := v }
  | .borderTopStyle v => { s with border_top_style := v }
  | .borderRightStyle v => { s with border_right_style := v }
  | .borderBottomStyle v => { s with border_bottom_style := v }
  | .borderLeftStyle v => { s with border_left_style := v }
  | .borderTopColor v => { s with border_top_color := v }
  | .borderRightColor v => { s with border_right_color := v }
  | .borderBottomColor v => { s with border_bottom_color := v }
  | .borderLeftColor v => { s with border_left_color := v }
  | .backgroundColor v => { s with background_color := v }
  | .backgroundImage v => { s with background_image := v }
  | .backgroundRepeat v => { s with background_repeat := v }
  | .backgroundPosition v => { s with background_position := v }
  | .backgroundSize v => { s with background_size := v }
  | .backgroundAttachment v => { s with background_attachment := v }
  | .fontFamily v => { s with font_family := v }
  | .fontSize v => { s with font_size := v }
  | .fontWeight v => { s with font_weight := v }
  | .fontStyle v => { s with font_style := v }
  | .lineHeight v => { s with line_height := v }
  | .letterSpacing v => { s with letter_spacing := v }
  | .wordSpacing v => { s with word_spacing := v }
  | .color v => { s with color := v }
  | .textAlign v => { s with text_align := v }
  | .textDecoration v => { s with text_decoration := v }
  | .textIndent v => { s with text_indent := v }
  | .textTransform v => { s with text_transform := v }
  | .whiteSpace v => { s with white_space := v }
  | .opacity v => { s with opacity := v }
  | .cursor v => { s with cursor := v }
  | .overflow v => { s with overflow := v }
  | .overflowX v => { s with overflow_x := v }
  | .overflowY v => { s with overflow_y := v }
  | .transform v => { s with transform := v }
  | .transformOrigin v => { s with transform_origin := v }
  | .transformStyle v => { s with transform_style := v }
  | .perspective v => { s with perspective := v }
  | .perspectiveOrigin v => { s with perspective_origin := v }
  | .transitionProperty v => { s with transition_property := v }
  | .transitionDuration v => { s with transition_duration := v }
  | .transitionTimingFunction v => { s with transition_timing_function := v }
  | .transitionDelay v => { s with transition_delay := v }
  | .animationName v => { s with animation_name := v }
  | .animationDuration v => { s with animation_duration := v }
  | .animationTimingFunction v => { s with animation_timing_function := v }
  | .animationDelay v => { s with animation_delay := v }
  | .animationIterationCount v => { s with animation_iteration_count := v }
  | .animationDirection v => { s with animation_direction := v }
  | .animationFillMode v => { s with animation_fill_mode := v }
  | .animationPlayState v => { s with animation_play_state := v }
  | .clip v => { s with clip := v }
  | .clipPath v => { s with clip_path := v }
  | .filter v => { s with filter := v }
  | .backfaceVisibility v => { s with backface_visibility := v }
  | .boxShadow v => { s with box_shadow := v }
  | .textShadow v => { s with text_shadow := v }
  | .flexDirection v => { s with flex_direction := v }
  | .flexWrap v => { s with flex_wrap := v }
  | .flexGrow v => { s with flex_grow := v }
  | .flexShrink v => { s with flex_shrink := v }
  | .flexBasis v => { s with flex_basis := v }
  | .justifyContent v => { s with justify_content := v }
  | .alignItems v => { s with align_items := v }
  | .alignSelf v => { s with align_self := v }
  | .alignContent v => { s with align_content := v }
  | .gridTemplateColumns v => { s with grid_template_columns := v }
  | .gridTemplateRows v => { s with grid_template_rows := v }
  | .gridTemplateAreas v => { s with grid_template_areas := v }
  | .gridAutoColumns v => { s with grid_auto_columns := v }
  | .gridAutoRows v => { s with grid_auto_rows := v }
  | .gridAutoFlow v => { s with grid_auto_flow := v }
  | .gridColumnStart v => { s with grid_column_start := v }
  | .gridColumnEnd v => { s with grid_column_end := v }
  | .gridRowStart v => { s with grid_row_start := v }
  | .gridRowEnd v => { s with grid_row_end := v }
  | .gridGap v => { s with grid_gap := v }
  | .gridColumnGap v => { s with grid_column_gap := v }
  | .gridRowGap v => { s with grid_row_gap := v }

/-- `StyleResolver::apply_declarations`. -/
def apply_declarations (s : ComputedStyle) (declarations : List Declaration) : ComputedStyle :=
  declarations.foldl apply_declaration s

/-- The child loop of `compute_element_styles`, as a fold with early
error exit; `step` is the recursive call at one less fuel. -/
def foldChildrenE (step : Nat → SMap → Except String SMap) :
    List Nat → SMap → Except String SMap
  | [], store => .ok store
  | child_id :: rest, store =>
    match step child_id store with
    | .error msg => .error msg
    | .ok store' => foldChildrenE step rest store'

/-- `StyleResolver::compute_element_styles`.  The Rust recursion is
unbounded (it terminates exactly when the `children` graph reached from
the start node is acyclic); the `fuel` argument makes it total in Lean —
any run of the Rust code that terminates is reproduced by every
sufficiently large fuel.  Per element: collect applicable rules, cascade,
start from `ComputedStyle::new`, inherit from the parent, apply winning
declarations, store, then recurse into element children. -/
def compute_element_styles (r : StyleResolver) (tree : Dom.DomTree) :
    Nat → Nat → Option ComputedStyle → SMap → Except String (ComputedStyle × SMap)
  | 0, _, _, _ => .error "recursion fuel exhausted"
  | fuel + 1, element_id, parent_style, store =>
    match tree.get_node element_id with
    | none => .error "Element not found"
    | some node =>
      match get_applicable_rules r tree element_id with
      | .error msg => .error msg
      | .ok applicable_rules =>
        match apply_cascade applicable_rules with
        | .error msg => .error msg
        | .ok winning_declarations =>
          let computed0 := ComputedStyle.new
          let computed1 :=
            match parent_style with
            | some parent => apply_inheritance computed0 parent
            | none => computed0
          let computed2 := apply_declarations computed1 winning_declarations
          let store1 := SMap.insertS store element_id computed2
          match foldChildrenE
              (fun child_id st =>
                match tree.get_node child_id with
                | some child_node =>
                  if child_node.is_element then
                    match compute_element_styles r tree fuel child_id (some computed2) st with
                    | .error msg => .error msg
                    | .ok (_, st') => .ok st'
                  else .ok st
                | none => .ok st)
              node.children store1 with
          | .error msg => .error msg
          | .ok store2 => .ok (computed2, store2)

/-- `StyleResolver::compute_styles`: clear the store, then resolve from
the root (modelled functionally: the fresh store is returned). -/
def compute_styles (r : StyleResolver) (tree : Dom.DomTree) (fuel : Nat) :
    Except String SMap :=
  match tree.root_id with
  | none => .ok []
  | some root_id =>
    match compute_element_styles r tree fuel root_id none [] with
    | .error msg => .error msg
    | .ok (_, store) => .ok store

/-- `StyleResolver::get_computed_style`. -/
def get_computed_style (store : SMap) (element_id : Nat) : Option ComputedStyle :=
  SMap.lookupS store element_id

end Sty

/-! ## Media queries (`src/style/src/media_queries.rs`) -/

namespace Med

/-- `MediaType`. -/
inductive MediaType where
  | all
  | screen
  | print
  | speech
  | braille
  | embossed
  | handheld
  | projection
  | tty
  | tv
  deriving DecidableEq

/-- `Orientation`. -/
inductive Orientation where
  | portrait
  | landscape
  deriving DecidableEq

/-- `ScanType`. -/
inductive ScanType where
  | progressive
  | interlace
  deriving DecidableEq

/-- `UpdateFrequency`. -/
inductive UpdateFrequency where
  | none
  | slow
  | normal
  deriving DecidableEq

/-- `HoverCapability`. -/
inductive HoverCapability where
  | none
  | hover
  deriving DecidableEq

/-- `PointerCapability`. -/
inductive PointerCapability where
  | none
  | coarse
  | fine
  deriving DecidableEq

/-- `MediaFeature` (the source constructor names `AspectRatio`,
`MinAspectRatio`, `MaxAspectRatio`, `Resolution`, `MinResolution` and
`MaxResolution` are rendered with a `Q` suffix to satisfy naming
restrictions of this development). -/
inductive MediaFeature where
  | width (v : ℚ)
  | minWidth (v : ℚ)
  | maxWidth (v : ℚ)
  | height (v : ℚ)
  | minHeight (v : ℚ)
  | maxHeight (v : ℚ)
  | aspectRatioQ (w h : ℚ)
  | minAspectRatioQ (w h : ℚ)
  | maxAspectRatioQ (w h : ℚ)
  | orientation (o : Orientation)
  | resolutionQ (v : ℚ)
  | minResolutionQ (v : ℚ)
  | maxResolutionQ (v : ℚ)
  | scan (s : ScanType)
  | grid (b : Bool)
  | update (u : UpdateFrequency)
  | overflowBlock (o : Orientation)
  | overflowInline (o : Orientation)
  | color (bits : Nat)
  | minColor (bits : Nat)
  | maxColor (bits : Nat)
  | colorIndex (i : Nat)
  | minColorIndex (i : Nat)
  | maxColorIndex (i : Nat)
  | monochrome (b : Bool)
  | minMonochrome (b : Bool)
  | maxMonochrome (b : Bool)
  | colorGamut (s : String)
  | pointer (c : HoverCapability)
  | hover (c : HoverCapability)
  | anyPointer (c : PointerCapability)
  | anyHover (c : HoverCapability)
  | prefersReducedMotion (b : Bool)
  | prefersReducedTransparency (b : Bool)
  | prefersColorScheme (s : String)
  | prefersContrast (s : String)
  | forcedColors (s : String)
  | scripting (s : String)
  deriving DecidableEq

/-- `MediaQuery`. -/
structure MediaQuery where
  media_type : Option MediaType
  features : List MediaFeature
  negated : Bool
  deriving DecidableEq

/-- `MediaQueryMatcher` (the source field `device_pixel_ratio` is
rendered `device_pixel_scale` to satisfy naming restrictions of this
development). -/
structure MediaQueryMatcher where
  current_media : MediaType
  viewport_width : ℚ
  viewport_height : ℚ
  device_pixel_scale : ℚ
  orientation : Orientation
  color_depth : Nat
  monochrome : Bool
  scan : ScanType
  grid : Bool
  update_frequency : UpdateFrequency
  hover_capability : HoverCapability
  pointer_capability : PointerCapability
  deriving DecidableEq

/-- `MediaQueryMatcher::new`. -/
def MediaQueryMatcher.new : MediaQueryMatcher :=
  { current_media := .screen
    viewport_width := 1024
    viewport_height := 768
    device_pixel_scale := 1
    orientation := .landscape
    color_depth := 24
    monochrome := false
    scan := .progressive
    grid := false
    update_frequency := .normal
    hover_capability := .hover
    pointer_capability := .fine }

/-- `f32::EPSILON`. -/
def f32Epsilon : ℚ := 1 / 2 ^ 23

/-- `MediaQueryMatcher::matches_feature`.  `f32` arithmetic is modelled
exactly over `ℚ` (the function only subtracts, divides and compares; no
claim depends on `f32` rounding). -/
def matches_feature (m : MediaQueryMatcher) (feature : MediaFeature) : Bool :=
  match feature with
  | .width value => |m.viewport_width - value| < f32Epsilon
  | .minWidth value => value ≤ m.viewport_width
  | .maxWidth value => m.viewport_width ≤ value
  | .height value => |m.viewport_height - value| < f32Epsilon
  | .minHeight value => value ≤ m.viewport_height
  | .maxHeight value => m.viewport_height ≤ value
  | .aspectRatioQ w h =>
    |m.viewport_width / m.viewport_height - w / h| < f32Epsilon
  | .minAspectRatioQ w h => w / h ≤ m.viewport_width / m.viewport_height
  | .maxAspectRatioQ w h => m.viewport_width / m.viewport_height ≤ w / h
  | .orientation o => m.orientation = o
  | .resolutionQ value => |m.device_pixel_scale - value| < f32Epsilon
  | .minResolutionQ value => value ≤ m.device_pixel_scale
  | .maxResolutionQ value => m.device_pixel_scale ≤ value
  | .scan s => m.scan = s
  | .grid g => m.grid = g
  | .update u => m.update_frequency = u
  | .overflowBlock o => m.orientation = o
  | .overflowInline o => m.orientation = o
  | .color bits => bits ≤ m.color_depth
  | .minColor bits => bits ≤ m.color_depth
  | .maxColor bits => m.color_depth ≤ bits
  | .colorIndex i => i ≤ m.color_depth
  | .minColorIndex i => i ≤ m.color_depth
  | .maxColorIndex i => m.color_depth ≤ i
  | .monochrome b => m.monochrome = b
  | .minMonochrome b => m.monochrome = b
  | .maxMonochrome b => m.monochrome = b
  | .colorGamut gamut => gamut == "srgb"
  | .pointer c => m.hover_capability = c
  | .hover c => m.hover_capability = c
  | .anyPointer c => m.pointer_capability = c
  | .anyHover c => m.hover_capability = c
  | .prefersReducedMotion reduced => reduced
  | .prefersReducedTransparency reduced => reduced
  | .prefersColorScheme scheme => scheme == "light"
  | .prefersContrast contrast => contrast == "normal"
  | .forcedColors forced => forced == "none"
  | .scripting scripting => scripting == "enabled"

/-- `MediaQueryMatcher::matches` (rendered `matchesQuery`; `matches` is
a Lean keyword): media type must equal the current one or be `all`;
every feature must match; `negated` flips the result. -/
def matchesQuery (m : MediaQueryMatcher) (media_query : MediaQuery) : Bool :=
  let type_ok :=
    match media_query.media_type with
    | some media_type => !(media_type ≠ m.current_media && media_type ≠ .all)
    | none => true
  let result := type_ok && media_query.features.all (fun f => matches_feature m f)
  if media_query.negated then !result else result

/-- Rust `f32::from_str` restricted to finite decimal syntax
`[+|-] digits [. digits] [(e|E) [+|-] digits]` (the engine never feeds
it `inf`/`nan`, and no claim observes `f32` rounding, so the exact
rational value is returned). -/
def parseF32 (s : String) : Option ℚ :=
  let chars := s.data
  let (sign, afterSign) :=
    match chars with
    | '-' :: rest => ((-1 : ℚ), rest)
    | '+' :: rest => ((1 : ℚ), rest)
    | rest => ((1 : ℚ), rest)
  let intDigits := afterSign.takeWhile Char.isDigit
  let afterInt := afterSign.drop intDigits.length
  let (fracDigits, afterFrac) :=
    match afterInt with
    | '.' :: rest => (rest.takeWhile Char.isDigit, rest.drop (rest.takeWhile Char.isDigit).length)
    | rest => ([], rest)
  if intDigits.isEmpty && fracDigits.isEmpty then none
  else
    let mantissa : ℚ :=
      (intDigits ++ fracDigits).foldl (fun acc c => acc * 10 + (((c.toNat - '0'.toNat : Nat) : ℚ))) (0 : ℚ)
        / 10 ^ fracDigits.length
    match afterFrac with
    | [] => some (sign * mantissa)
    | e :: rest =>
      if e = 'e' || e = 'E' then
        let (esign, afterESign) :=
          match rest with
          | '-' :: r => ((-1 : Int), r)
          | '+' :: r => ((1 : Int), r)
          | r => ((1 : Int), r)
        let expDigits := afterESign.takeWhile Char.isDigit
        if expDigits.isEmpty || !(afterESign.drop expDigits.length).isEmpty then none
        else
          let expVal : Nat := expDigits.foldl (fun acc c => acc * 10 + (c.toNat - '0'.toNat)) 0
          some (sign * mantissa * (10 : ℚ) ^ (esign * (expVal : Int)))
      else none

/-- `MediaQueryMatcher::parse_feature`: a chain of `starts_with` prefix
tests; any feature string matching no branch (or whose payload fails its
sub-parse) yields `None`, and the caller silently drops it. -/
def parse_feature (feature : String) : Option MediaFeature :=
  if strStartsWith feature "width:" then
    (parseF32 (strDrop feature 6)).map (fun v => .width v)
  else if strStartsWith feature "min-width:" then
    (parseF32 (strDrop feature 10)).map (fun v => .minWidth v)
  else if strStartsWith feature "max-width:" then
    (parseF32 (strDrop feature 10)).map (fun v => .maxWidth v)
  else if strStartsWith feature "height:" then
    (parseF32 (strDrop feature 7)).map (fun v => .height v)
  else if strStartsWith feature "min-height:" then
    (parseF32 (strDrop feature 11)).map (fun v => .minHeight v)
  else if strStartsWith feature "max-height:" then
    (parseF32 (strDrop feature 11)).map (fun v => .maxHeight v)
  else if strStartsWith feature "orientation:" then
    let orientation := strTrim (strDrop feature 12)
    if orientation == "portrait" then some (.orientation .portrait)
    else if orientation == "landscape" then some (.orientation .landscape)
    else none
  else if strStartsWith feature "resolution:" then
    (parseF32 (strDrop feature 11)).map (fun v => .resolutionQ v)
  else if strStartsWith feature "min-resolution:" then
    (parseF32 (strDrop feature 15)).map (fun v => .minResolutionQ v)
  else if strStartsWith feature "max-resolution:" then
    (parseF32 (strDrop feature 15)).map (fun v => .maxResolutionQ v)
  else if strStartsWith feature "scan:" then
    let scan := strTrim (strDrop feature 5)
    if scan == "progressive" then some (.scan .progressive)
    else if scan == "interlace" then some (.scan .interlace)
    else none
  else if strStartsWith feature "grid:" then
    let grid := strTrim (strDrop feature 5)
    if grid == "1" then some (.grid true)
    else if grid == "0" then some (.grid false)
    else none
  else if strStartsWith feature "update:" then
    let update := strTrim (strDrop feature 7)
    if update == "none" then some (.update .none)
    else if update == "slow" then some (.update .slow)
    else if update == "normal" then some (.update .normal)
    else none
  else if strStartsWith feature "pointer:" then
    let pointer := strTrim (strDrop feature 8)
    if pointer == "none" then some (.pointer .none)
    else if pointer == "coarse" then some (.pointer .hover)
    else if pointer == "fine" then some (.pointer .hover)
    else none
  else if strStartsWith feature "hover:" then
    let hover := strTrim (strDrop feature 6)
    if hover == "none" then some (.hover .none)
    else if hover == "hover" then some (.hover .hover)
    else none
  else if strStartsWith feature "any-pointer:" then
    let pointer := strTrim (strDrop feature 12)
    if pointer == "none" then some (.anyPointer .none)
    else if pointer == "coarse" then some (.anyPointer .coarse)
    else if pointer == "fine" then some (.anyPointer .fine)
    else none
  else if strStartsWith feature "any-hover:" then
    let hover := strTrim (strDrop feature 10)
    if hover == "none" then some (.anyHover .none)
    else if hover == "hover" then some (.anyHover .hover)
    else none
  else if strStartsWith feature "prefers-reduced-motion:" then
    let reduced := strTrim (strDrop feature 23)
    if reduced == "reduce" then some (.prefersReducedMotion true)
    else if reduced == "no-preference" then some (.prefersReducedMotion false)
    else none
  else if strStartsWith feature "prefers-reduced-transparency:" then
    let reduced := strTrim (strDrop feature 29)
    if reduced == "reduce" then some (.prefersReducedTransparency true)
    else if reduced == "no-preference" then some (.prefersReducedTransparency false)
    else none
  else if strStartsWith feature "prefers-color-scheme:" then
    some (.prefersColorScheme (strTrim (strDrop feature 21)))
  else if strStartsWith feature "prefers-contrast:" then
    some (.prefersContrast (strTrim (strDrop feature 17)))
  else if strStartsWith feature "forced-colors:" then
    some (.forcedColors (strTrim (strDrop feature 14)))
  else if strStartsWith feature "scripting:" then
    some (.scripting (strTrim (strDrop feature 10)))
  else none

/-- The feature-collecting loop of `parse_media_query`: each part that
`parse_feature` recognises is pushed; unrecognised parts are silently
dropped. -/
def collect_features (parts : List String) : List MediaFeature :=
  parts.foldl
    (fun acc part =>
      match parse_feature (strTrim part) with
      | some feature => acc ++ [feature]
      | none => acc)
    []

/-- `MediaQueryMatcher::parse_media_query`.  A query starting with
`"not "` must name one of four known media types or the function errs;
otherwise the first `" and "`-separated part is tried as a media type
and every remaining part as a feature, unknown features being dropped. -/
def parse_media_query (query : String) : Except String MediaQuery :=
  let query := strTrim query
  if strStartsWith query "not " then
    let query := strDrop query 4
    if query == "all" then .ok ⟨some .all, [], true⟩
    else if query == "screen" then .ok ⟨some .screen, [], true⟩
    else if query == "print" then .ok ⟨some .print, [], true⟩
    else if query == "speech" then .ok ⟨some .speech, [], true⟩
    else .error "Invalid media type"
  else
    match strSplitOn query " and " with
    | [] => .error "Empty media query"
    | first_part :: rest =>
      let first_part := strTrim first_part
      if first_part == "all" then .ok ⟨some .all, collect_features rest, false⟩
      else if first_part == "screen" then .ok ⟨some .screen, collect_features rest, false⟩
      else if first_part == "print" then .ok ⟨some .print, collect_features rest, false⟩
      else if first_part == "speech" then .ok ⟨some .speech, collect_features rest, false⟩
      else
        .ok ⟨none, collect_features (first_part :: rest), false⟩

end Med

/-! ## Reachability along the traversal's element chains

`StyleResolver::compute_element_styles` visits the start node and then
recurses into exactly those children that are element nodes.
`ReachFrom tree i j` says `j` is visited when the traversal starts at
`i`: either `j = i`, or `j` is reached from an element child of `i`. -/

/-- The set of nodes the resolution traversal visits from a start node:
the start node itself, and, transitively, every child that is an element
node. -/
inductive ReachFrom (tree : Dom.DomTree) : Nat → Nat → Prop
  | refl (i : Nat) : ReachFrom tree i i
  | step {i c j : Nat} (n : Dom.Node) (hn : tree.get_node i = some n) (hc : c ∈ n.children)
      (cn : Dom.Node) (hcn : tree.get_node c = some cn) (he : cn.is_element = true)
      (h : ReachFrom tree c j) : ReachFrom tree i j

/-! ## Concrete inputs used by the theorems below -/

namespace Demo

open Sty

/-- The selector `p.x` (style-crate vintage). -/
def pxSel : Sel := .simple { SimpleSel.empty with tag_name := some "p", classes := ["x"] }

/-- The selector `p` (style-crate vintage). -/
def pSel : Sel := .simple { SimpleSel.empty with tag_name := some "p" }

/-- A user-agent stylesheet `p.x { color: black }`. -/
def uaSheet : Stylesheet := ⟨[.styleRule ⟨[pxSel], [⟨.color (.named "black"), false⟩]⟩]⟩

/-- An author stylesheet `p { color: blue }`. -/
def authorBlueSheet : Stylesheet := ⟨[.styleRule ⟨[pSel], [⟨.color (.named "blue"), false⟩]⟩]⟩

/-- A resolver holding the user-agent sheet `p.x { color: black }` and
the author sheet `p { color: blue }`. -/
def resolverC1 : StyleResolver :=
  add_stylesheet (add_stylesheet StyleResolver.new uaSheet .userAgent) authorBlueSheet .author

/-- A DOM holding the single element `<p class="x">`. -/
def treeP : Dom.DomTree :=
  ⟨[⟨.element ⟨"p", none, [("class", "x")], false, false⟩, none, [], none, none⟩],
   ⟨none, none, none, none⟩, some 0⟩

/-- The selector `body` (style-crate vintage). -/
def bodySel : Sel := .simple { SimpleSel.empty with tag_name := some "body" }

/-- The selector `body em` (style-crate vintage `Complex` form: the parts
in order; this vintage records no combinator data). -/
def bodyEmSel : Sel :=
  .complex [{ SimpleSel.empty with tag_name := some "body" },
            { SimpleSel.empty with tag_name := some "em" }]

/-- An author stylesheet `body { font-size: 20px } body em { font-size: 150% }`. -/
def fontSheet : Stylesheet :=
  ⟨[.styleRule ⟨[bodySel], [⟨.fontSize (.px 20), false⟩]⟩,
    .styleRule ⟨[bodyEmSel], [⟨.fontSize (.percentage 150), false⟩]⟩]⟩

/-- A resolver holding only `fontSheet` as an author sheet. -/
def resolverC2 : StyleResolver := add_stylesheet StyleResolver.new fontSheet .author

/-- A DOM `<body><em><span/></em></body>` (ids 0, 1, 2). -/
def treeBodyEmSpan : Dom.DomTree :=
  ⟨[⟨.element ⟨"body", none, [], false, false⟩, none, [1], none, none⟩,
    ⟨.element ⟨"em", none, [], false, false⟩, some 0, [2], none, none⟩,
    ⟨.element ⟨"span", none, [], false, false⟩, some 1, [], none, none⟩],
   ⟨none, none, none, none⟩, some 0⟩

/-- A DOM holding the single element `<p>` (no class). -/
def treePPlain : Dom.DomTree :=
  ⟨[⟨.element ⟨"p", none, [], false, false⟩, none, [], none, none⟩],
   ⟨none, none, none, none⟩, some 0⟩

/-- A resolver holding one author sheet with the two rules
`p { color: c1 }` then `p { color: c2 }`. -/
def resolverC8 (c1 c2 : Color) : StyleResolver :=
  add_stylesheet StyleResolver.new
    ⟨[.styleRule ⟨[pSel], [⟨.color c1, false⟩]⟩,
      .styleRule ⟨[pSel], [⟨.color c2, false⟩]⟩]⟩ .author

/-- The selector `ul > li` built through the `css_parser` constructors
(`Selector::new`, `add_simple_selector`, `add_combinator`). -/
def ulChildLiSel : Css.Selector :=
  ((Css.Selector.new.add_simple_selector (.typ "ul")).add_combinator
    .child).add_simple_selector (.typ "li")

/-- The selector `h1 ~ p` built through the `css_parser` constructors. -/
def h1GeneralSiblingPSel : Css.Selector :=
  ((Css.Selector.new.add_simple_selector (.typ "h1")).add_combinator
    .generalSibling).add_simple_selector (.typ "p")

/-- An `li` element.  In the DOM of the C3 scenario it sits inside a
`div` that sits inside a `ul`; the matcher under test receives no tree
information at all, so the element value alone determines the result. -/
def liElem : Dom.Element := ⟨"li", none, [], false, false⟩

/-- A `p` element with no siblings at all (in particular no preceding
`h1`). -/
def lonePElem : Dom.Element := ⟨"p", none, [], false, false⟩

/-- A `div` element with no attributes. -/
def bareDivElem : Dom.Element := ⟨"div", none, [], false, false⟩

/-- A `div` element whose `title` attribute is present with the empty
string as value. -/
def emptyTitleDivElem : Dom.Element := ⟨"div", none, [("title", "")], false, false⟩

/-- A resolver with no stylesheets registered. -/
def emptyResolver : StyleResolver := StyleResolver.new

/-- A DOM `<html><body/></html>` (ids 0, 1). -/
def treeHtmlBody : Dom.DomTree :=
  ⟨[⟨.element ⟨"html", none, [], false, false⟩, none, [1], none, none⟩,
    ⟨.element ⟨"body", none, [], false, false⟩, some 0, [], none, none⟩],
   ⟨none, none, none, none⟩, some 0⟩

/-- The selector `#id` built through the `css_parser` constructors. -/
def idSel : Css.Selector := Css.Selector.new.add_simple_selector (.id "id")

/-- The selector `.class.class2` built through the `css_parser`
constructors. -/
def classClass2Sel : Css.Selector :=
  (Css.Selector.new.add_simple_selector (.cls "class")).add_simple_selector (.cls "class2")

/-- The selector `div` built through the `css_parser` constructors. -/
def divSel : Css.Selector := Css.Selector.new.add_simple_selector (.typ "div")

/-- The selector `div.class` built through the `css_parser`
constructors. -/
def divClassSel : Css.Selector :=
  (Css.Selector.new.add_simple_selector (.typ "div")).add_simple_selector (.cls "class")

end Demo

/-! ## Claim theorems -/

open Sty in
/-- C1: the claim says the 5-way effective-origin order decides before
any other criterion, so the Author rule `p { color: blue }` must beat the
user-agent rule `p.x { color: black }` on `<p class="x">` despite the
user-agent selector's higher specificity.  The code does the opposite:
`get_applicable_rules` sorts the candidates by bare specificity (the
recorded origin is never consulted) and `apply_cascade`'s stubbed
specificity makes the last — highest-specificity — rule win, so the
computed color is the user-agent black. -/
theorem c1_origin_ignored_eval :
    ((compute_styles Demo.resolverC1 Demo.treeP 3).toOption.bind
      (fun s => (SMap.lookupS s 0).map (fun c => c.color))) = some (.named "black")
    ∧ Spec4.cmp (calculate_specificity Demo.pxSel) (calculate_specificity Demo.pSel) = .gt
    ∧ Color.named "black" ≠ Color.named "blue" := by
  refine ⟨rfl, rfl, ?_⟩
  decide

open Sty in
/-- C2: the claim says that with `body { font-size: 20px }` and
`body em { font-size: 150% }` the `em` computes `30px` and its
descendants inherit `30px`.  The code never resolves the percentage: the
`em` element's stored `font_size` is the raw `Percentage 150` (the
resolver inherits the parent's `20px` first and then overwrites it with
the declared relative value), and the `span` below it inherits that raw
`Percentage 150`; even the (never-invoked) special-inheritance rule
would only replace the relative value by the parent's `20px`, not
`30px`. -/
theorem c2_relative_font_size_unresolved_eval :
    ((compute_styles Demo.resolverC2 Demo.treeBodyEmSpan 5).toOption.bind
      (fun s => (SMap.lookupS s 0).map (fun c => c.font_size))) = some (.px 20)
    ∧ ((compute_styles Demo.resolverC2 Demo.treeBodyEmSpan 5).toOption.bind
      (fun s => (SMap.lookupS s 1).map (fun c => c.font_size))) = some (.percentage 150)
    ∧ ((compute_styles Demo.resolverC2 Demo.treeBodyEmSpan 5).toOption.bind
      (fun s => (SMap.lookupS s 2).map (fun c => c.font_size))) = some (.percentage 150)
    ∧ (apply_special_inheritance { ComputedStyle.new with font_size := .percentage 150 }
        { ComputedStyle.new with font_size := .px 20 }).font_size = .px 20
    ∧ Length.percentage 150 ≠ Length.px 30 := by
  refine ⟨rfl, rfl, rfl, rfl, ?_⟩
  decide

open Sty in
/-- C3: the claim says `ul > li` must not match an `li` whose immediate
parent is not the `ul`, and `h1 ~ p` must not match a `p` with no
preceding `h1` sibling.  Both cited matchers test only the last
simple-selector part and receive no tree context at all, so the `li`
(whose parent, in the scenario's DOM, is an intervening `div`) and the
sibling-less `p` both match: `Selector::matches_element` returns `true`
for both selectors — whose parts and combinators are exactly `ul > li`
and `h1 ~ p` — and `StyleResolver::selector_matches` likewise matches
the complex form of `ul > li` against the bare `li`. -/
theorem c3_combinators_ignored_eval :
    Demo.ulChildLiSel.parts = [.typ "ul", .typ "li"]
    ∧ Demo.ulChildLiSel.combinators = [.child]
    ∧ Demo.ulChildLiSel.matches_element Demo.liElem Css.SelectorMatchContext.new = true
    ∧ Demo.h1GeneralSiblingPSel.parts = [.typ "h1", .typ "p"]
    ∧ Demo.h1GeneralSiblingPSel.combinators = [.generalSibling]
    ∧ Demo.h1GeneralSiblingPSel.matches_element Demo.lonePElem
        Css.SelectorMatchContext.new = true
    ∧ selector_matchesR (.complex [{ SimpleSel.empty with tag_name := some "ul" },
        { SimpleSel.empty with tag_name := some "li" }]) Demo.liElem = .ok true :=
  ⟨rfl, rfl, rfl, rfl, rfl, rfl, rfl⟩

/-- C4 counterexample: the claim says that of two layered declarations
(same origin) the one whose layer has the higher declared integer order
wins, for every pair of layers regardless of their names.  Here the
first context's layer is `("b", 1)` and the second's is `("a", 5)`: the
second has the higher order 5 (and even the higher source order), yet
the first wins and the second loses, because the derived `Ord` on
`CascadeLayer` compares the `name` string before `order`. -/
theorem c4_layer_name_beats_order_counterexample :
    Css.CascadeContext.wins_over ⟨.author, some ⟨"b", 1⟩, ⟨0, 0, 0⟩, 0⟩
      ⟨.author, some ⟨"a", 5⟩, ⟨0, 0, 0⟩, 1⟩ = true
    ∧ Css.CascadeContext.wins_over ⟨.author, some ⟨"a", 5⟩, ⟨0, 0, 0⟩, 1⟩
      ⟨.author, some ⟨"b", 1⟩, ⟨0, 0, 0⟩, 0⟩ = false := by
  constructor <;> decide

/-- C5 counterexample: the claim says a media query containing an
unknown or unparsable feature evaluates as non-matching and never raises
an error.  The parser instead drops the unknown feature
`(frobnicate: 3)` — the query parses to bare `screen` and matches the
default environment, so the enclosing rule stays enabled — and
`not handheld` is reported as an error. -/
theorem c5_unknown_feature_counterexample :
    Med.parse_media_query "screen and (frobnicate: 3)" = .ok ⟨some .screen, [], false⟩
    ∧ Med.matchesQuery Med.MediaQueryMatcher.new ⟨some .screen, [], false⟩ = true
    ∧ Med.parse_media_query "not handheld" = .error "Invalid media type" :=
  ⟨rfl, rfl, rfl⟩

open Sty in
/-- C6 counterexample: the claim says a missing attribute fails every
operator including `exists`, and a present attribute satisfies `exists`
even with the empty-string value.  `Selector::attribute_matches` returns
`true` for `[title]` on a `div` with no attributes at all, and
`StyleResolver::simple_selector_matches` rejects the existence test on a
`div` whose `title` attribute is present but empty. -/
theorem c6_exists_operator_counterexample :
    Css.attribute_matches Demo.bareDivElem "title" .existsOp none = true
    ∧ simple_selector_matchesR { SimpleSel.empty with attributes := [⟨"title", none, ""⟩] }
        Demo.emptyTitleDivElem = .ok false :=
  ⟨rfl, rfl⟩

open Sty in
/-- C8: with one author stylesheet containing `p { color: c1 }` followed
by `p { color: c2 }` — identical selectors, equal origin, no layers,
equal specificity — the later rule wins for every pair of colors: the
resolved color of the matching `p` element is `c2`. -/
theorem c8_source_order_tie_break (c1 c2 : Sty.Color) :
    ((compute_styles (Demo.resolverC8 c1 c2) Demo.treePPlain 2).toOption.bind
      (fun s => (SMap.lookupS s 0).map (fun c => c.color))) = some c2 := rfl

open Sty in
/-- C10: `add_stylesheet` with origin `UserAgent` or `User` overwrites
the previously registered sheet of that origin — registering twice
leaves the resolver in exactly the state of registering only the second
sheet, so the first sheet's rules contribute to nothing (in particular
`compute_styles` agrees with the never-registered state on every tree) —
while origin `Author` appends, keeping every previously added author
stylesheet in place. -/
theorem c10_add_stylesheet_replace_append (r : Sty.StyleResolver)
    (s1 s2 : Sty.Stylesheet) :
    add_stylesheet (add_stylesheet r s1 .userAgent) s2 .userAgent
      = add_stylesheet r s2 .userAgent
    ∧ add_stylesheet (add_stylesheet r s1 .user) s2 .user = add_stylesheet r s2 .user
    ∧ (add_stylesheet r s1 .author).author_styles = r.author_styles ++ [s1]
    ∧ (add_stylesheet r s1 .author).user_agent_styles = r.user_agent_styles
    ∧ (add_stylesheet r s1 .author).user_styles = r.user_styles
    ∧ ∀ tree fuel,
        compute_styles (add_stylesheet (add_stylesheet r s1 .userAgent) s2 .userAgent) tree fuel
          = compute_styles (add_stylesheet r s2 .userAgent) tree fuel :=
  ⟨rfl, rfl, rfl, rfl, rfl, fun _ _ => rfl⟩

/-- The counting loop of `Selector::update_specificity`, characterised
against `List.countP`: starting from any accumulator, the fold adds the
number of id parts to `a`, of class-like parts to `b`, and of type-like
parts to `c`. -/
theorem updateSpecificity_foldl_counts (parts : List Css.SimpleSelector)
    (init : Css.Specificity) :
    parts.foldl
      (fun s part =>
        match part with
        | .id _ => { s with a := s.a + 1 }
        | .cls _ => { s with b := s.b + 1 }
        | .attr _ _ _ => { s with b := s.b + 1 }
        | .pseudoClass _ => { s with b := s.b + 1 }
        | .typ _ => { s with c := s.c + 1 }
        | .pseudoElement _ => { s with c := s.c + 1 }
        | .universal => s)
      init =
    ⟨init.a + parts.countP (fun p => match p with | .id _ => true | _ => false),
     init.b + parts.countP (fun p => match p with
       | .cls _ | .attr _ _ _ | .pseudoClass _ => true | _ => false),
     init.c + parts.countP (fun p => match p with
       | .typ _ | .pseudoElement _ => true | _ => false)⟩ := by
  induction parts generalizing init with
  | nil => simp
  | cons head tail ih =>
    cases head <;>
      simp [List.foldl_cons, ih, List.countP_cons, Css.Specificity.mk.injEq] <;> omega

/-- C7: `update_specificity` counts id simple-selectors into the first
component, classes, attribute selectors and pseudo-classes into the
second, and type selectors and pseudo-elements into the third; a
universal selector anywhere in the parts list contributes nothing;
comparison is lexicographic on the triple; and on the concrete selectors
built through the crate's own constructors, `#id` outranks
`.class.class2`, which outranks `div`, and `div.class` outranks `div`. -/
theorem c7_specificity_counts_and_order :
    (∀ parts : List Css.SimpleSelector,
      Css.updateSpecificity parts =
        ⟨parts.countP (fun p => match p with | .id _ => true | _ => false),
         parts.countP (fun p => match p with
           | .cls _ | .attr _ _ _ | .pseudoClass _ => true | _ => false),
         parts.countP (fun p => match p with
           | .typ _ | .pseudoElement _ => true | _ => false)⟩)
    ∧ (∀ s t : Css.Specificity, s.cmp t = .gt ↔
        (t.a < s.a ∨ (s.a = t.a ∧ (t.b < s.b ∨ (s.b = t.b ∧ t.c < s.c)))))
    ∧ (∀ l1 l2 : List Css.SimpleSelector,
        Css.updateSpecificity (l1 ++ .universal :: l2) = Css.updateSpecificity (l1 ++ l2))
    ∧ Demo.idSel.specificity.cmp Demo.classClass2Sel.specificity = .gt
    ∧ Demo.classClass2Sel.specificity.cmp Demo.divSel.specificity = .gt
    ∧ Demo.divClassSel.specificity.cmp Demo.divSel.specificity = .gt := by
  have hcount : ∀ parts : List Css.SimpleSelector,
      Css.updateSpecificity parts =
        ⟨parts.countP (fun p => match p with | .id _ => true | _ => false),
         parts.countP (fun p => match p with
           | .cls _ | .attr _ _ _ | .pseudoClass _ => true | _ => false),
         parts.countP (fun p => match p with
           | .typ _ | .pseudoElement _ => true | _ => false)⟩ := by
    intro parts
    have h := updateSpecificity_foldl_counts parts ⟨0, 0, 0⟩
    simpa [Css.updateSpecificity] using h
  refine ⟨hcount, ?_, ?_, by decide, by decide, by decide⟩
  · intro s t
    unfold Css.Specificity.cmp
    rcases Nat.lt_trichotomy s.a t.a with h | h | h
    · rw [Nat.compare_eq_lt.mpr h]
      simp only [false_iff, reduceCtorEq]
      omega
    · rw [h, Nat.compare_eq_eq.mpr rfl]
      rcases Nat.lt_trichotomy s.b t.b with h2 | h2 | h2
      · rw [Nat.compare_eq_lt.mpr h2]
        simp only [false_iff, reduceCtorEq]
        omega
      · rw [h2, Nat.compare_eq_eq.mpr rfl]
        rcases Nat.lt_trichotomy s.c t.c with h3 | h3 | h3
        · rw [Nat.compare_eq_lt.mpr h3]
          simp only [false_iff, reduceCtorEq]
          omega
        · rw [h3, Nat.compare_eq_eq.mpr rfl]
          simp only [false_iff, reduceCtorEq]
          omega
        · rw [Nat.compare_eq_gt.mpr h3]
          simp only [eq_self_iff_true, true_iff, true_and]
          omega
      · rw [Nat.compare_eq_gt.mpr h2]
        simp only [eq_self_iff_true, true_iff, true_and]
        omega
    · rw [Nat.compare_eq_gt.mpr h]
      simp only [eq_self_iff_true, true_iff, true_and]
      omega
  · intro l1 l2
    rw [hcount, hcount]
    simp [List.countP_append, List.countP_cons]

/-- `compare` on `String` is reflexive. -/
theorem strCompare_self (s : String) : compare s s = .eq := by
  simp [compare, compareOfLessAndEq]

/-- `compare` on `String` returns `.eq` exactly on equal strings. -/
theorem strCompare_eq_eq {s t : String} : compare s t = .eq ↔ s = t := by
  constructor
  · intro h
    simp [compare, compareOfLessAndEq] at h
    exact h.2
  · rintro rfl
    exact strCompare_self s

/-- When two cascade layers have different names, the derived comparison
is decided entirely by the name strings. -/
theorem layer_cmp_of_ne_name {l1 l2 : Css.CascadeLayer} (h : l1.name ≠ l2.name) :
    l1.cmp l2 = compare l1.name l2.name := by
  unfold Css.CascadeLayer.cmp
  cases hc : compare l1.name l2.name with
  | eq => exact absurd (strCompare_eq_eq.mp hc) h
  | lt => rfl
  | gt => rfl

/-- When two cascade layers have equal names, the derived comparison is
decided by the integer orders. -/
theorem layer_cmp_of_eq_name {l1 l2 : Css.CascadeLayer} (h : l1.name = l2.name) :
    l1.cmp l2 = compare l1.order l2.order := by
  unfold Css.CascadeLayer.cmp
  rw [h, strCompare_self]

open Css in
/-- C4 (amended): in `CascadeContext::wins_over`, layer order is
consulted after origin and before specificity, and within the same
origin an unlayered declaration loses to every layered one; but of two
layered declarations the comparison is lexicographic on the pair
`(name, order)`: a lexicographically greater layer *name* wins outright,
and the declared integer order decides only between layers of equal
name. -/
theorem c4_layer_comparison_amended (c1 c2 : Css.CascadeContext) :
    (compare c1.origin.num c2.origin.num = .gt → c1.wins_over c2 = true)
    ∧ (compare c1.origin.num c2.origin.num = .lt → c1.wins_over c2 = false)
    ∧ (∀ l1, c1.origin = c2.origin → c1.layer = some l1 → c2.layer = none →
        c1.wins_over c2 = true)
    ∧ (∀ l2, c1.origin = c2.origin → c1.layer = none → c2.layer = some l2 →
        c1.wins_over c2 = false)
    ∧ (∀ l1 l2, c1.origin = c2.origin → c1.layer = some l1 → c2.layer = some l2 →
        l1.name ≠ l2.name → c1.wins_over c2 = (compare l1.name l2.name == .gt))
    ∧ (∀ l1 l2, c1.origin = c2.origin → c1.layer = some l1 → c2.layer = some l2 →
        l1.name = l2.name → l2.order < l1.order → c1.wins_over c2 = true)
    ∧ (∀ l1 l2, c1.origin = c2.origin → c1.layer = some l1 → c2.layer = some l2 →
        l1.name = l2.name → l1.order < l2.order → c1.wins_over c2 = false) := by
  have horigeq : c1.origin = c2.origin → compare c1.origin.num c2.origin.num = .eq := by
    intro h
    rw [h]
    exact Nat.compare_eq_eq.mpr rfl
  refine ⟨?_, ?_, ?_, ?_, ?_, ?_, ?_⟩
  · intro h
    simp [CascadeContext.wins_over, h]
  · intro h
    simp [CascadeContext.wins_over, h]
  · intro l1 ho h1 h2
    simp [CascadeContext.wins_over, horigeq ho, h1, h2]
  · intro l2 ho h1 h2
    simp [CascadeContext.wins_over, horigeq ho, h1, h2]
  · intro l1 l2 ho h1 h2 hname
    simp only [CascadeContext.wins_over, horigeq ho, h1, h2]
    rw [layer_cmp_of_ne_name hname]
    cases hc : compare l1.name l2.name with
    | eq => exact absurd (strCompare_eq_eq.mp hc) hname
    | lt => rfl
    | gt => rfl
  · intro l1 l2 ho h1 h2 hname horder
    simp only [CascadeContext.wins_over, horigeq ho, h1, h2]
    rw [layer_cmp_of_eq_name hname, Nat.compare_eq_gt.mpr horder]
  · intro l1 l2 ho h1 h2 hname horder
    simp only [CascadeContext.wins_over, horigeq ho, h1, h2]
    rw [layer_cmp_of_eq_name hname, Nat.compare_eq_lt.mpr horder]

/-- Witness for C4 (amended): between two Author contexts carrying the
same layer name `"x"`, the one with layer order 5 beats the one with
layer order 2, even though the latter has higher specificity and higher
source order. -/
theorem c4_layer_comparison_amended_witness :
    Css.CascadeContext.wins_over ⟨.author, some ⟨"x", 5⟩, ⟨0, 0, 0⟩, 0⟩
      ⟨.author, some ⟨"x", 2⟩, ⟨1, 0, 0⟩, 9⟩ = true :=
  (c4_layer_comparison_amended ⟨.author, some ⟨"x", 5⟩, ⟨0, 0, 0⟩, 0⟩
      ⟨.author, some ⟨"x", 2⟩, ⟨1, 0, 0⟩, 9⟩).2.2.2.2.2.1
    ⟨"x", 5⟩ ⟨"x", 2⟩ rfl rfl rfl rfl (by decide)

open Css in
/-- C6 (amended): in `Selector::attribute_matches`, a missing attribute
makes the result `true` exactly for the `exists` operator (so absence
fails every operator except `exists`, which matches even in the
attribute's absence), and a present attribute satisfies `exists`
whatever its value; in `StyleResolver::simple_selector_matches`, a
missing attribute fails every operator including the existence test, and
the existence test on a present attribute succeeds exactly when the
value is non-empty. -/
theorem c6_attribute_matching_amended :
    (∀ (e : Dom.Element) (name : String) (op : AttributeOperator) (v : Option String),
      e.get_attribute name = none →
        Css.attribute_matches e name op v = decide (op = .existsOp))
    ∧ (∀ (e : Dom.Element) (name val : String) (v : Option String),
      e.get_attribute name = some val →
        Css.attribute_matches e name .existsOp v = true)
    ∧ (∀ (e : Dom.Element) (n : String) (op : Option Sty.AttrOp) (v : String),
      e.get_attribute n = none →
        Sty.simple_selector_matchesR
          { Sty.SimpleSel.empty with attributes := [⟨n, op, v⟩] } e = .ok false)
    ∧ (∀ (e : Dom.Element) (n v val : String),
      e.get_attribute n = some val →
        Sty.simple_selector_matchesR
          { Sty.SimpleSel.empty with attributes := [⟨n, none, v⟩] } e
          = .ok (!strIsEmpty val)) := by
  refine ⟨?_, ?_, ?_, ?_⟩
  · intro e name op v h
    simp [Css.attribute_matches, h]
  · intro e name val v h
    simp [Css.attribute_matches, h]
  · intro e n op v h
    simp [Sty.simple_selector_matchesR, Sty.SimpleSel.empty, Sty.check_attributes, h]
  · intro e n v val h
    cases hv : strIsEmpty val <;>
      simp [Sty.simple_selector_matchesR, Sty.SimpleSel.empty, Sty.check_attributes, h, hv]

/-- Witness for C6 (amended): concrete instances of all four parts on a
`div` with no attributes and a `div` whose `title` attribute is the
empty string. -/
theorem c6_attribute_matching_amended_witness :
    Css.attribute_matches Demo.bareDivElem "lang" .equals (some "en")
      = decide ((Css.AttributeOperator.equals) = .existsOp)
    ∧ Css.attribute_matches Demo.emptyTitleDivElem "title" .existsOp none = true
    ∧ Sty.simple_selector_matchesR
        { Sty.SimpleSel.empty with attributes := [⟨"lang", some .equals, "en"⟩] }
        Demo.bareDivElem = .ok false
    ∧ Sty.simple_selector_matchesR
        { Sty.SimpleSel.empty with attributes := [⟨"title", none, "x"⟩] }
        Demo.emptyTitleDivElem = .ok (!strIsEmpty "") :=
  ⟨c6_attribute_matching_amended.1 Demo.bareDivElem "lang" .equals (some "en") rfl,
   c6_attribute_matching_amended.2.1 Demo.emptyTitleDivElem "title" "" none rfl,
   c6_attribute_matching_amended.2.2.1 Demo.bareDivElem "lang" (some .equals) "en" rfl,
   c6_attribute_matching_amended.2.2.2 Demo.emptyTitleDivElem "title" "x" "" rfl⟩

/-- `splitOnGo` never returns the empty list. -/
theorem splitOnGo_ne_nil (sep : List Char) :
    ∀ (fuel : Nat) (l acc : List Char), splitOnGo sep fuel l acc ≠ [] := by
  intro fuel
  induction fuel with
  | zero =>
    intro l acc
    cases l <;> simp [splitOnGo]
  | succ fuel ih =>
    intro l acc
    cases l with
    | nil => simp [splitOnGo]
    | cons c rest =>
      simp only [splitOnGo]
      split
      · simp
      · exact ih rest (c :: acc)

/-- The feature-collecting loop keeps exactly the parts `parse_feature`
recognises, starting from any accumulator. -/
theorem collect_features_foldl (parts : List String) (acc : List Med.MediaFeature) :
    parts.foldl
      (fun acc part =>
        match Med.parse_feature (strTrim part) with
        | some feature => acc ++ [feature]
        | none => acc)
      acc = acc ++ parts.filterMap (fun p => Med.parse_feature (strTrim p)) := by
  induction parts generalizing acc with
  | nil => simp
  | cons head tail ih =>
    cases hf : Med.parse_feature (strTrim head) <;>
      simp [List.foldl_cons, List.filterMap_cons, hf, ih]

open Med in
/-- C5 (amended): an unknown or unparsable media feature is silently
dropped from the query rather than disabling it — parsing keeps exactly
the recognised features, so a query whose features are all unknown
matches whenever its media type does (the rule stays enabled); parsing
never errs on a query that does not begin with `"not "`; a `not` query
naming anything but `all`/`screen`/`print`/`speech` is reported as an
error.  Concretely, `screen and (frobnicate: 3)` parses to bare `screen`
and matches the default environment, the parenthesised
`(max-width: 600px)` is itself dropped by the prefix-based feature
parser, and `not handheld` errs. -/
theorem c5_unknown_feature_amended :
    (∀ parts, Med.collect_features parts
      = parts.filterMap (fun p => Med.parse_feature (strTrim p)))
    ∧ (∀ q, strStartsWith (strTrim q) "not " = false →
        (Med.parse_media_query q).isOk = true)
    ∧ Med.parse_media_query "screen and (frobnicate: 3)" = .ok ⟨some .screen, [], false⟩
    ∧ Med.matchesQuery Med.MediaQueryMatcher.new ⟨some .screen, [], false⟩ = true
    ∧ Med.parse_media_query "(max-width: 600px)" = .ok ⟨none, [], false⟩
    ∧ Med.parse_media_query "not handheld" = .error "Invalid media type" := by
  refine ⟨?_, ?_, rfl, rfl, rfl, rfl⟩
  · intro parts
    exact collect_features_foldl parts []
  · intro q h
    simp only [Med.parse_media_query, h]
    cases hsplit : strSplitOn (strTrim q) " and " with
    | nil =>
      exact absurd (by simpa [strSplitOn] using hsplit)
        (splitOnGo_ne_nil (" and ".data) ((strTrim q).data.length + 1) (strTrim q).data [])
    | cons first rest =>
      simp only [Bool.false_eq_true, if_false, hsplit]
      repeat' split
      all_goals rfl

/-- Witness for C5 (amended): the no-error statement applied to the
concrete query `"print"`. -/
theorem c5_unknown_feature_amended_witness :
    (Med.parse_media_query "print").isOk = true :=
  c5_unknown_feature_amended.2.1 "print" (by decide)

/-- Entries filtered out for a key are not counted for that key. -/
theorem countP_filter_self (m : Sty.SMap) (k : Nat) :
    (m.filter (fun p => p.1 != k)).countP (fun p => p.1 == k) = 0 := by
  induction m with
  | nil => rfl
  | cons a l ih =>
    by_cases h : a.1 = k <;> simp [List.filter_cons, h, List.countP_cons, ih]

/-- Filtering one key out leaves the count of every other key alone. -/
theorem countP_filter_other (m : Sty.SMap) {k k' : Nat} (h : k' ≠ k) :
    (m.filter (fun p => p.1 != k)).countP (fun p => p.1 == k')
      = m.countP (fun p => p.1 == k') := by
  induction m with
  | nil => rfl
  | cons a l ih =>
    by_cases ha : a.1 = k
    · have h2 : ¬ a.1 = k' := by omega
      have h3 : ¬ k = k' := by omega
      simp [List.filter_cons, ha, List.countP_cons, ih, h2, h3]
    · simp [List.filter_cons, ha, List.countP_cons, ih]

/-- `HashMap::insert` leaves exactly one entry for the inserted key and
does not change the entry count of any other key. -/
theorem countKey_insertS (m : Sty.SMap) (k k' : Nat) (v : Sty.ComputedStyle) :
    (Sty.SMap.insertS m k v).countKey k' = if k' = k then 1 else m.countKey k' := by
  unfold Sty.SMap.insertS Sty.SMap.countKey
  by_cases h : k' = k
  · subst h
    simp [List.countP_cons, countP_filter_self]
  · simp [List.countP_cons, h, Ne.symm h, countP_filter_other m h]

/-- Filtering one key out does not change `find?` for any other key. -/
theorem find_filter_other (m : Sty.SMap) {k k' : Nat} (h : k' ≠ k) :
    (m.filter (fun p => p.1 != k)).find? (fun p => p.1 == k')
      = m.find? (fun p => p.1 == k') := by
  induction m with
  | nil => rfl
  | cons a l ih =>
    by_cases ha : a.1 = k
    · have h2 : ¬ a.1 = k' := by omega
      have h3 : ¬ k = k' := by omega
      simp [List.filter_cons, ha, List.find?_cons, h2, h3, ih]
    · by_cases ha' : a.1 = k' <;>
        simp [List.filter_cons, ha, List.find?_cons, ha', ih, h, Ne.symm h]

/-- `HashMap::insert` followed by lookup: the inserted key maps to the
new value, every other key to its old binding. -/
theorem lookupS_insertS (m : Sty.SMap) (k k' : Nat) (v : Sty.ComputedStyle) :
    (Sty.SMap.insertS m k v).lookupS k' = if k' = k then some v else m.lookupS k' := by
  unfold Sty.SMap.insertS Sty.SMap.lookupS
  by_cases h : k' = k
  · subst h
    simp [List.find?_cons]
  · simp [List.find?_cons, Ne.symm h, find_filter_other m h, h]

/-- A property of the store preserved by every step of the child fold is
preserved by the whole fold. -/
theorem foldChildrenE_preserve {P : Sty.SMap → Prop}
    (step : Nat → Sty.SMap → Except String Sty.SMap)
    (hstep : ∀ c st st', step c st = .ok st' → P st → P st') :
    ∀ (cs : List Nat) (st st' : Sty.SMap),
      Sty.foldChildrenE step cs st = .ok st' → P st → P st' := by
  intro cs
  induction cs with
  | nil =>
    intro st st' h hp
    simp only [Sty.foldChildrenE, Except.ok.injEq] at h
    exact h ▸ hp
  | cons c rest ih =>
    intro st st' h hp
    simp only [Sty.foldChildrenE] at h
    cases hc : step c st with
    | error e => rw [hc] at h; exact absurd h (by simp)
    | ok st1 => rw [hc] at h; exact ih st1 st' h (hstep c st st1 hc hp)

/-- A successful child fold runs the step on every member of the list:
it does so from some intermediate store, and the rest of the fold
continues from the step's result. -/
theorem foldChildrenE_mem (step : Nat → Sty.SMap → Except String Sty.SMap) {c : Nat} :
    ∀ (cs : List Nat) (st st' : Sty.SMap),
      Sty.foldChildrenE step cs st = .ok st' → c ∈ cs →
      ∃ st1 st2 suffix, step c st1 = .ok st2
        ∧ Sty.foldChildrenE step suffix st2 = .ok st' := by
  intro cs
  induction cs with
  | nil =>
    intro st st' _ hmem
    exact absurd hmem (List.not_mem_nil c)
  | cons d rest ih =>
    intro st st' h hmem
    simp only [Sty.foldChildrenE] at h
    cases hd : step d st with
    | error e => rw [hd] at h; exact absurd h (by simp)
    | ok st1 =>
      rw [hd] at h
      rcases List.mem_cons.mp hmem with hcd | hcrest
      · exact ⟨st, st1, rest, hcd ▸ hd, h⟩
      · exact ih st1 st' h hcrest

open Sty in
/-- The traversal never removes a key that already has exactly one
entry: a successful `compute_element_styles` run started on a store
where key `k` has one entry ends on a store where `k` still has one
entry. -/
theorem compute_preserves_count :
    ∀ (fuel : Nat) (r : StyleResolver) (tree : Dom.DomTree) (id : Nat)
      (ps : Option ComputedStyle) (st : SMap) (res : ComputedStyle × SMap),
      compute_element_styles r tree fuel id ps st = .ok res →
      ∀ k, st.countKey k = 1 → res.2.countKey k = 1 := by
  intro fuel
  induction fuel with
  | zero =>
    intro r tree id ps st res h k hk
    simp [compute_element_styles] at h
  | succ n ih =>
    intro r tree id ps st res h k hk
    simp only [compute_element_styles] at h
    split at h
    · exact absurd h (by simp)
    next node hnode =>
    split at h
    · exact absurd h (by simp)
    next rules hrules =>
    split at h
    · exact absurd h (by simp)
    next winning hwinning =>
    split at h
    · exact absurd h (by simp)
    next store2 hfold =>
    injection h with h
    subst h
    show Sty.SMap.countKey store2 k = 1
    refine foldChildrenE_preserve (P := fun s => s.countKey k = 1) _ ?_ node.children _ store2 hfold ?_
    · intro c u u' hstep hp
      split at hstep
      next child_node hchild =>
        split at hstep
        · split at hstep
          · exact absurd hstep (by simp)
          next sty2 u2 hrec =>
            injection hstep with hstep
            subst hstep
            exact ih r tree c _ u (sty2, u2) hrec k hp
        · injection hstep with hstep
          exact hstep ▸ hp
      next =>
        injection hstep with hstep
        exact hstep ▸ hp
    · simp only [countKey_insertS]
      split <;> [rfl; exact hk]

open Sty in
/-- One child step of the traversal preserves "key `k` has exactly one
entry" (the step either leaves the store unchanged or runs the traversal
on an element child). -/
theorem child_step_count (r : StyleResolver) (tree : Dom.DomTree) (n : Nat)
    (c2 : ComputedStyle) (k : Nat) :
    ∀ (child_id : Nat) (st st' : SMap),
      (match tree.get_node child_id with
       | some child_node =>
         if child_node.is_element then
           match compute_element_styles r tree n child_id (some c2) st with
           | Except.error msg => Except.error msg
           | Except.ok (_, st') => Except.ok st'
         else Except.ok st
       | none => Except.ok st) = Except.ok st' →
      st.countKey k = 1 → st'.countKey k = 1 := by
  intro child_id st st' h hp
  split at h
  next child_node hchild =>
    split at h
    · split at h
      · exact absurd h (by simp)
      next sty2 u2 hrec =>
        injection h with h
        subst h
        exact compute_preserves_count n r tree child_id _ st (sty2, u2) hrec k hp
    · injection h with h
      exact h ▸ hp
  next =>
    injection h with h
    exact h ▸ hp

open Sty in
/-- A successful `compute_element_styles` run leaves exactly one entry
for the start node's id. -/
theorem compute_inserts_self (fuel : Nat) (r : StyleResolver) (tree : Dom.DomTree)
    (id : Nat) (ps : Option ComputedStyle) (st : SMap) (res : ComputedStyle × SMap)
    (h : compute_element_styles r tree fuel id ps st = .ok res) :
    res.2.countKey id = 1 := by
  cases fuel with
  | zero => simp [compute_element_styles] at h
  | succ n =>
    simp only [compute_element_styles] at h
    split at h
    · exact absurd h (by simp)
    next node hnode =>
    split at h
    · exact absurd h (by simp)
    next rules hrules =>
    split at h
    · exact absurd h (by simp)
    next winning hwinning =>
    split at h
    · exact absurd h (by simp)
    next store2 hfold =>
    injection h with h
    subst h
    show Sty.SMap.countKey store2 id = 1
    refine foldChildrenE_preserve (P := fun s => s.countKey id = 1) _
      (child_step_count r tree n _ id) node.children _ store2 hfold ?_
    simp [countKey_insertS]

open Sty in
/-- Every node reachable from the start node along element chains ends
with exactly one entry in the store of a successful traversal. -/
theorem compute_reaches_all :
    ∀ (fuel : Nat) (r : StyleResolver) (tree : Dom.DomTree) (id j : Nat)
      (ps : Option ComputedStyle) (st : SMap) (res : ComputedStyle × SMap),
      compute_element_styles r tree fuel id ps st = .ok res →
      ReachFrom tree id j → res.2.countKey j = 1 := by
  intro fuel
  induction fuel with
  | zero =>
    intro r tree id j ps st res h _
    simp [compute_element_styles] at h
  | succ n ih =>
    intro r tree id j ps st res h hreach
    cases hreach with
    | refl => exact compute_inserts_self (n + 1) r tree id ps st res h
    | step nd hnd hc cnd hcnd he hrest =>
      rename_i c
      simp only [compute_element_styles] at h
      split at h
      · exact absurd h (by simp)
      next node hnode =>
      split at h
      · exact absurd h (by simp)
      next rules hrules =>
      split at h
      · exact absurd h (by simp)
      next winning hwinning =>
      split at h
      · exact absurd h (by simp)
      next store2 hfold =>
      injection h with h
      subst h
      show Sty.SMap.countKey store2 j = 1
      have hnodes : node = nd := by
        rw [hnode] at hnd
        exact Option.some.inj hnd
      obtain ⟨u1, u2, suffix, hstep_c, hfold_suffix⟩ :=
        foldChildrenE_mem _ node.children _ store2 hfold (hnodes ▸ hc)
      split at hstep_c
      next child_node hchild =>
        have hcn : child_node = cnd := by
          rw [hchild] at hcnd
          exact Option.some.inj hcnd
        split at hstep_c
        · split at hstep_c
          · exact absurd hstep_c (by simp)
          next sty2 uu2 hrec =>
            injection hstep_c with hstep_c
            subst hstep_c
            have h1 : uu2.countKey j = 1 := ih r tree c j _ u1 (sty2, uu2) hrec hrest
            exact foldChildrenE_preserve (P := fun s => s.countKey j = 1) _
              (child_step_count r tree n _ j) suffix _ store2 hfold_suffix h1
        next hne => exact absurd (hcn ▸ he) hne
      next hnone => rw [hnone] at hcnd; exact absurd hcnd (by simp)

open Sty in
/-- Applying no declarations changes nothing. -/
theorem apply_declarations_nil (s : ComputedStyle) : apply_declarations s [] = s := rfl

open Sty in
/-- Inheriting from a default parent into a default child is the
identity. -/
theorem apply_inheritance_new :
    apply_inheritance ComputedStyle.new ComputedStyle.new = ComputedStyle.new := rfl

open Sty in
/-- When no rule applies to any node, a successful traversal computes
the default (`ComputedStyle::new`) style for the start node and stores
only default styles. -/
theorem compute_default_styles :
    ∀ (fuel : Nat) (r : StyleResolver) (tree : Dom.DomTree),
      (∀ k nd, tree.get_node k = some nd → get_applicable_rules r tree k = .ok []) →
      ∀ (id : Nat) (ps : Option ComputedStyle) (st : SMap) (res : ComputedStyle × SMap),
      compute_element_styles r tree fuel id ps st = .ok res →
      (ps = none ∨ ps = some ComputedStyle.new) →
      (∀ k v, st.lookupS k = some v → v = ComputedStyle.new) →
      res.1 = ComputedStyle.new ∧
        (∀ k v, res.2.lookupS k = some v → v = ComputedStyle.new) := by
  intro fuel
  induction fuel with
  | zero =>
    intro r tree hr id ps st res h _ _
    simp [compute_element_styles] at h
  | succ n ih =>
    intro r tree hr id ps st res h hps hst
    rcases hps with rfl | rfl <;>
    · simp only [compute_element_styles] at h
      split at h
      · exact absurd h (by simp)
      next node hnode =>
      simp only [hr id node hnode, apply_cascade, List.foldl_nil, List.map_nil,
        apply_declarations_nil, apply_inheritance_new] at h
      split at h
      · exact absurd h (by simp)
      next store2 hfold =>
      injection h with h
      subst h
      refine ⟨rfl, ?_⟩
      show ∀ k v, Sty.SMap.lookupS store2 k = some v → v = ComputedStyle.new
      refine foldChildrenE_preserve
        (P := fun s => ∀ k v, s.lookupS k = some v → v = ComputedStyle.new) _
        ?_ node.children _ store2 hfold ?_
      · intro c u u' hstep hp
        split at hstep
        next child_node hchild =>
          split at hstep
          · split at hstep
            · exact absurd hstep (by simp)
            next sty2 u2 hrec =>
              injection hstep with hstep
              subst hstep
              exact (ih r tree hr c (some ComputedStyle.new) u (sty2, u2) hrec
                (Or.inr rfl) hp).2
          · injection hstep with hstep
            exact hstep ▸ hp
        next =>
          injection hstep with hstep
          exact hstep ▸ hp
      · intro k v hlk
        rw [lookupS_insertS] at hlk
        split at hlk
        · exact (Option.some.inj hlk).symm
        · exact hst k v hlk

open Sty in
/-- C9: after one successful resolution pass started at the DOM root,
every node the traversal can reach from the root — the root itself and,
transitively, every element child — has exactly one entry in the
computed-style store; and when no stylesheet rule applies to any node of
the tree, every stored entry is the complete default `ComputedStyle`
(whose construction assigns every property its initial value, so no
property is left unset).  The fuel hypothesis `compute_styles … = .ok …`
states that the run completed, which is exactly the terminating domain
of the unbounded Rust recursion. -/
theorem c9_resolution_totality (r : StyleResolver) (tree : Dom.DomTree)
    (fuel root : Nat) (store : SMap) (hroot : tree.root_id = some root)
    (hok : compute_styles r tree fuel = .ok store) :
    (∀ id, ReachFrom tree root id → store.countKey id = 1)
    ∧ ((∀ k nd, tree.get_node k = some nd → get_applicable_rules r tree k = .ok []) →
       ∀ k v, store.lookupS k = some v → v = ComputedStyle.new) := by
  simp only [compute_styles, hroot] at hok
  cases hrun : compute_element_styles r tree fuel root none [] with
  | error e =>
    rw [hrun] at hok
    exact absurd hok (by simp)
  | ok res =>
    obtain ⟨sty, st2⟩ := res
    rw [hrun] at hok
    injection hok with hok
    subst hok
    constructor
    · intro id hreach
      exact compute_reaches_all fuel r tree root id none [] (sty, st2) hrun hreach
    · intro hr k v hlk
      refine (compute_default_styles fuel r tree hr root none [] (sty, st2) hrun
        (Or.inl rfl) ?_).2 k v hlk
      intro k' v' h'
      simp [SMap.lookupS] at h'

/-- Witness for C9: in the two-element DOM `<html><body/></html>` with
no stylesheets registered, the completed pass stores exactly one entry
for the root and one for the reachable `body` element, both the default
style. -/
theorem c9_resolution_totality_witness :
    Sty.SMap.countKey [(1, Sty.ComputedStyle.new), (0, Sty.ComputedStyle.new)] 1 = 1
    ∧ Sty.SMap.countKey [(1, Sty.ComputedStyle.new), (0, Sty.ComputedStyle.new)] 0 = 1 := by
  have h := c9_resolution_totality Demo.emptyResolver Demo.treeHtmlBody 3 0
    [(1, Sty.ComputedStyle.new), (0, Sty.ComputedStyle.new)] rfl rfl
  have hn0 : Demo.treeHtmlBody.get_node 0 =
      some ⟨.element ⟨"html", none, [], false, false⟩, none, [1], none, none⟩ := rfl
  have hn1 : Demo.treeHtmlBody.get_node 1 =
      some ⟨.element ⟨"body", none, [], false, false⟩, some 0, [], none, none⟩ := rfl
  exact ⟨h.1 1 (ReachFrom.step _ hn0 (by simp) _ hn1 rfl (ReachFrom.refl 1)),
    h.1 0 (ReachFrom.refl 0)⟩

end Apollo
